import Mathlib

/-!
Verification development for the SVG gradient generator (`src/App.tsx`).

The component state and its operations (`addColorStop`, `removeColorStop`,
`updateColorStop`, `generateSVG`) are shallowly embedded below.  JavaScript
numbers are modelled by exact rationals (`ℚ`) for state values; the
trigonometric endpoint computation of `generateSVG` is kept generic in a
carrier type `α` together with a `TrigOps α` record, instantiated with the
real functions `Real.cos`, `Real.sin`, `Real.pi` for the numeric claims.
Number-to-string rendering (JavaScript's implicit template-literal
stringification) is an abstract parameter of the generator.
-/

namespace GradientApp

set_option maxRecDepth 8000

/-- Gradient type: the `'linear' | 'radial'` union of the source. -/
inductive GradientType : Type
  | linear : GradientType
  | radial : GradientType
deriving DecidableEq, Repr

/-- A color stop, as in the `ColorStop` interface of the source.
The `offset` is a JavaScript number, modelled as an exact rational. -/
structure ColorStop : Type where
  id : String
  color : String
  offset : ℚ
deriving DecidableEq, Repr

/-- Noise settings, as in the `NoiseSettings` interface of the source. -/
structure NoiseSettings : Type where
  enabled : Bool
  baseFrequency : ℚ
  numOctaves : ℚ
  scale : ℚ
deriving DecidableEq, Repr

/-- The component state relevant to the generator: gradient type, angle,
color stops and noise settings. -/
structure AppState : Type where
  gradientType : GradientType
  angle : ℚ
  colorStops : List ColorStop
  noise : NoiseSettings
deriving DecidableEq, Repr

/-- Ordering of color stops used by the comparator `(a, b) => a.offset - b.offset`. -/
def stopLE (a b : ColorStop) : Prop := a.offset ≤ b.offset

instance : DecidableRel stopLE := fun a b => inferInstanceAs (Decidable (a.offset ≤ b.offset))

instance : IsTotal ColorStop stopLE := ⟨fun a b => le_total a.offset b.offset⟩

instance : IsTrans ColorStop stopLE := ⟨fun _ _ _ h₁ h₂ => le_trans h₁ h₂⟩

/-- The `.sort((a, b) => a.offset - b.offset)` call of the source: a stable
sort by ascending offset (JavaScript's `Array.prototype.sort` is stable;
insertion sort is a stable sorting algorithm). -/
def sortByOffset (l : List ColorStop) : List ColorStop := List.insertionSort stopLE l

/-- Decimal rendering of a natural number, as produced by JavaScript's
`Number.prototype.toString()` on a nonnegative integer (used for
`Date.now().toString()`). -/
def natStr (n : ℕ) : String := String.mk (Nat.toDigits 10 n)

/-- Lowercase hexadecimal rendering of a natural number, as produced by
JavaScript's `Number.prototype.toString(16)` on a nonnegative integer. -/
def natHexStr (n : ℕ) : String := String.mk (Nat.toDigits 16 n)

/-- JavaScript's `String.prototype.padStart(n, c)`. -/
def padStart (s : String) (n : ℕ) (c : Char) : String :=
  String.mk (List.replicate (n - s.data.length) c ++ s.data)

/-- The pseudo-random color of `addColorStop`:
`'#' + Math.floor(Math.random()*16777215).toString(16).padStart(6, '0')`,
with the `Math.random()` draw passed in as the rational `rand`. -/
def randColor (rand : ℚ) : String :=
  "#" ++ padStart (natHexStr (Int.toNat ⌊rand * 16777215⌋)) 6 '0'

/-- The new stop built by `addColorStop`: id `Date.now().toString()`, a
pseudo-random color, and offset 50. -/
def newStop (now : ℕ) (rand : ℚ) : ColorStop :=
  { id := natStr now, color := randColor rand, offset := 50 }

/-- The `addColorStop` handler: append the new stop and re-sort by offset. -/
def addColorStop (now : ℕ) (rand : ℚ) (stops : List ColorStop) : List ColorStop :=
  sortByOffset (stops ++ [newStop now rand])

/-- The `removeColorStop` handler: drop the stops with the given id, but only
when more than two stops are present; otherwise leave the list unchanged. -/
def removeColorStop (i : String) (stops : List ColorStop) : List ColorStop :=
  if 2 < stops.length then stops.filter (fun stop => stop.id ≠ i) else stops

/-- A field update for `updateColorStop`: the `field : 'color' | 'offset'`
argument together with its `value : string | number`. -/
inductive StopUpdate : Type
  | color (v : String) : StopUpdate
  | offset (v : ℚ) : StopUpdate
deriving DecidableEq, Repr

/-- Application of a field update to a stop: `{ ...stop, [field]: value }`. -/
def applyUpdate (u : StopUpdate) (s : ColorStop) : ColorStop :=
  match u with
  | StopUpdate.color v => { s with color := v }
  | StopUpdate.offset v => { s with offset := v }

/-- The `updateColorStop` handler: update the matching stops and re-sort. -/
def updateColorStop (i : String) (u : StopUpdate) (stops : List ColorStop) : List ColorStop :=
  sortByOffset (stops.map (fun stop => if stop.id = i then applyUpdate u stop else stop))

/-- The gradient identifier `'gradient-' + Date.now()`. -/
def gradientId (now : ℕ) : String := "gradient-" ++ natStr now

/-- The filter identifier `'filter-' + Date.now()`. -/
def filterId (now : ℕ) : String := "filter-" ++ natStr now

/-- The turbulence identifier `'turbulence-' + Date.now()` (declared by the
source but never interpolated into the output). -/
def turbulenceId (now : ℕ) : String := "turbulence-" ++ natStr now

/-- The pattern identifier `'pattern-' + Date.now()`. -/
def patternId (now : ℕ) : String := "pattern-" ++ natStr now

/-- JavaScript's `Array.prototype.join(sep)`. -/
def joinSep (sep : String) : List String → String
  | [] => ""
  | [x] => x
  | x :: y :: rest => x ++ sep ++ joinSep sep (y :: rest)

/-- One `<stop …/>` line of the generated SVG. -/
def stopLine (numStr : ℚ → String) (s : ColorStop) : String :=
  "<stop offset=\"" ++ numStr s.offset ++ "%\" stop-color=\"" ++ s.color ++ "\" />"

/-- The trigonometric operations used by the endpoint computation, kept
abstract so that the generator stays executable; the numeric claims
instantiate them with `Real.cos`, `Real.sin` and `Real.pi`. -/
structure TrigOps (α : Type) : Type where
  cos : α → α
  sin : α → α
  pi : α

/-- The `generateSVG` function of the source, parameterised by the carrier
type of the endpoint arithmetic, its trig operations, the number renderers
(for computed coordinates and for state numbers) and the `Date.now()` value. -/
def generateSVG {α : Type} [Field α] (T : TrigOps α) (coordStr : α → String)
    (numStr : ℚ → String) (now : ℕ) (st : AppState) : String :=
  let _tid := turbulenceId now
  let stops := joinSep "\n      " (st.colorStops.map (stopLine numStr))
  if st.noise.enabled then
    match st.gradientType with
    | GradientType.linear =>
      let rad : α := (((st.angle : ℚ) : α) - 90) * T.pi / 180
      let x1 := 50 + 50 * T.cos rad
      let y1 := 50 + 50 * T.sin rad
      let x2 := 50 - 50 * T.cos rad
      let y2 := 50 - 50 * T.sin rad
      "<svg width=\"100%\" height=\"100%\" xmlns=\"http://www.w3.org/2000/svg\">\n  <defs>\n    <linearGradient id=\"" ++ gradientId now ++ "\" x1=\"" ++ coordStr x1 ++ "%\" y1=\"" ++ coordStr y1 ++ "%\" x2=\"" ++ coordStr x2 ++ "%\" y2=\"" ++ coordStr y2 ++ "%\">\n      " ++ stops ++ "\n    </linearGradient>\n    <filter id=\"" ++ filterId now ++ "\" x=\"-50%\" y=\"-50%\" width=\"200%\" height=\"200%\">\n      <feTurbulence\n        type=\"fractalNoise\"\n        baseFrequency=\"" ++ numStr st.noise.baseFrequency ++ "\"\n        numOctaves=\"" ++ numStr st.noise.numOctaves ++ "\"\n        result=\"turbulence\" />\n      <feDisplacementMap\n        in=\"SourceGraphic\"\n        in2=\"turbulence\"\n        scale=\"" ++ numStr st.noise.scale ++ "\"\n        xChannelSelector=\"R\"\n        yChannelSelector=\"G\" />\n    </filter>\n    <pattern id=\"" ++ patternId now ++ "\" width=\"100%\" height=\"100%\" patternUnits=\"objectBoundingBox\">\n      <rect width=\"100%\" height=\"100%\" fill=\"url(#" ++ gradientId now ++ ")\" filter=\"url(#" ++ filterId now ++ ")\" />\n    </pattern>\n  </defs>\n  <rect width=\"100%\" height=\"100%\" fill=\"url(#" ++ patternId now ++ ")\" />\n</svg>"
    | GradientType.radial =>
      "<svg width=\"100%\" height=\"100%\" xmlns=\"http://www.w3.org/2000/svg\">\n  <defs>\n    <radialGradient id=\"" ++ gradientId now ++ "\">\n      " ++ stops ++ "\n    </radialGradient>\n    <filter id=\"" ++ filterId now ++ "\" x=\"-50%\" y=\"-50%\" width=\"200%\" height=\"200%\">\n      <feTurbulence\n        type=\"fractalNoise\"\n        baseFrequency=\"" ++ numStr st.noise.baseFrequency ++ "\"\n        numOctaves=\"" ++ numStr st.noise.numOctaves ++ "\"\n        result=\"turbulence\" />\n      <feDisplacementMap\n        in=\"SourceGraphic\"\n        in2=\"turbulence\"\n        scale=\"" ++ numStr st.noise.scale ++ "\"\n        xChannelSelector=\"R\"\n        yChannelSelector=\"G\" />\n    </filter>\n    <pattern id=\"" ++ patternId now ++ "\" width=\"100%\" height=\"100%\" patternUnits=\"objectBoundingBox\">\n      <rect width=\"100%\" height=\"100%\" fill=\"url(#" ++ gradientId now ++ ")\" filter=\"url(#" ++ filterId now ++ ")\" />\n    </pattern>\n  </defs>\n  <rect width=\"100%\" height=\"100%\" fill=\"url(#" ++ patternId now ++ ")\" />\n</svg>"
  else
    match st.gradientType with
    | GradientType.linear =>
      let rad : α := (((st.angle : ℚ) : α) - 90) * T.pi / 180
      let x1 := 50 + 50 * T.cos rad
      let y1 := 50 + 50 * T.sin rad
      let x2 := 50 - 50 * T.cos rad
      let y2 := 50 - 50 * T.sin rad
      "<svg width=\"100%\" height=\"100%\" xmlns=\"http://www.w3.org/2000/svg\">\n  <defs>\n    <linearGradient id=\"" ++ gradientId now ++ "\" x1=\"" ++ coordStr x1 ++ "%\" y1=\"" ++ coordStr y1 ++ "%\" x2=\"" ++ coordStr x2 ++ "%\" y2=\"" ++ coordStr y2 ++ "%\">\n      " ++ stops ++ "\n    </linearGradient>\n  </defs>\n  <rect width=\"100%\" height=\"100%\" fill=\"url(#" ++ gradientId now ++ ")\" />\n</svg>"
    | GradientType.radial =>
      "<svg width=\"100%\" height=\"100%\" xmlns=\"http://www.w3.org/2000/svg\">\n  <defs>\n    <radialGradient id=\"" ++ gradientId now ++ "\">\n      " ++ stops ++ "\n    </radialGradient>\n  </defs>\n  <rect width=\"100%\" height=\"100%\" fill=\"url(#" ++ gradientId now ++ ")\" />\n</svg>"

/-- The real-valued trig operations: the mathematical reading of
`Math.cos`, `Math.sin`, `Math.PI`. -/
noncomputable def realTrig : TrigOps ℝ :=
  { cos := Real.cos, sin := Real.sin, pi := Real.pi }

/-- Specification-side angle conversion: `rad = (angle − 90) × π/180`. -/
noncomputable def specRad (angle : ℚ) : ℝ := (((angle : ℚ) : ℝ) - 90) * Real.pi / 180

/-- Specification-side first endpoint abscissa `50 + 50·cos(rad)`. -/
noncomputable def specX1 (angle : ℚ) : ℝ := 50 + 50 * Real.cos (specRad angle)

/-- Specification-side first endpoint ordinate `50 + 50·sin(rad)`. -/
noncomputable def specY1 (angle : ℚ) : ℝ := 50 + 50 * Real.sin (specRad angle)

/-- Specification-side second endpoint abscissa `50 − 50·cos(rad)`. -/
noncomputable def specX2 (angle : ℚ) : ℝ := 50 - 50 * Real.cos (specRad angle)

/-- Specification-side second endpoint ordinate `50 − 50·sin(rad)`. -/
noncomputable def specY2 (angle : ℚ) : ℝ := 50 - 50 * Real.sin (specRad angle)

/-- Modelled from the spec: the repository only contains the pure-SVG
variant of the tool; the `computeCSSGradient` operation of the HTML+CSS
sibling variant is absent from the sources. Following the spec's words: a
comma-joined list of `"<color> <offset>%"` tokens from the stops, wrapped
in `linear-gradient(<angleDegrees>deg, <tokens>)` for a linear gradient and
in `radial-gradient(circle, <tokens>)` for a radial one. -/
def computeCSSGradient (numStr : ℚ → String) (cfg : AppState) : String :=
  let tokens := joinSep ", "
    (cfg.colorStops.map (fun s => s.color ++ " " ++ numStr s.offset ++ "%"))
  match cfg.gradientType with
  | GradientType.linear => "linear-gradient(" ++ numStr cfg.angle ++ "deg, " ++ tokens ++ ")"
  | GradientType.radial => "radial-gradient(circle, " ++ tokens ++ ")"

/-- Decimal rendering of integer-valued rationals, agreeing with
JavaScript's number stringification on integers (the only values the
concrete examples use); non-integral rationals are not modelled and render
as the empty string. -/
def intRatStr (q : ℚ) : String :=
  if q.den = 1 then (if q.num < 0 then "-" else "") ++ natStr q.num.natAbs else ""

/-- Validity of a hex-encoded RGB color: `'#'` followed by exactly six
lowercase hexadecimal digits. -/
def isHexDigitChar (c : Char) : Bool := c.isDigit || ('a' ≤ c && c ≤ 'f')

/-- Boolean recogniser for hex-encoded RGB color strings. -/
def isHexColor (c : String) : Bool :=
  match c.data with
  | ch :: rest => ch == '#' && rest.length == 6 && rest.all isHexDigitChar
  | [] => false

/-- Number of positions of `l` at which the pattern `p` occurs (as a
contiguous run of characters). -/
def countSub : List Char → List Char → ℕ
  | [], _ => 0
  | x :: t, p => (if p <+: x :: t then 1 else 0) + countSub t p

/-- Occurrence count at the level of strings. -/
def countOccur (s pat : String) : ℕ := countSub s.data pat.data

/-- Join a list of segments, interspersing the barrier character `b`. -/
def sepJoin (b : Char) : List (List Char) → List Char
  | [] => []
  | [s] => s
  | s :: t :: rest => s ++ b :: sepJoin b (t :: rest)

/-- Quote-delimited segments contributed by the stops fragment, with
configurable glue joining the surrounding template segments. -/
def stopSegs (numStr : ℚ → String) (gL gR : List Char) : List ColorStop → List (List Char)
  | [] => [gL ++ gR]
  | [s] => [gL ++ "<stop offset=".data, (numStr s.offset).data ++ ['%'],
      " stop-color=".data, s.color.data, " />".data ++ gR]
  | s :: t :: rest =>
    (gL ++ "<stop offset=".data) :: ((numStr s.offset).data ++ ['%']) ::
      " stop-color=".data :: s.color.data ::
        stopSegs numStr (" />\n      ".data) gR (t :: rest)

/-- Quote-delimited segments of the noise-free linear SVG output. -/
def segsPlainLinear (numStr : ℚ → String) (now : ℕ) (stops : List ColorStop)
    (c1 c2 c3 c4 : String) : List (List Char) :=
  ["<svg width=".data, "100%".data, " height=".data, "100%".data, " xmlns=".data,
    "http://www.w3.org/2000/svg".data, ">\n  <defs>\n    <linearGradient id=".data,
    (gradientId now).data, " x1=".data, c1.data ++ ['%'], " y1=".data, c2.data ++ ['%'],
    " x2=".data, c3.data ++ ['%'], " y2=".data, c4.data ++ ['%']]
  ++ (stopSegs numStr (">\n      ".data)
      ("\n    </linearGradient>\n  </defs>\n  <rect width=".data) stops
  ++ ["100%".data, " height=".data, "100%".data, " fill=".data,
      "url(#".data ++ (gradientId now).data ++ [')'], " />\n</svg>".data])

/-- Quote-delimited segments of the noise-free radial SVG output. -/
def segsPlainRadial (numStr : ℚ → String) (now : ℕ) (stops : List ColorStop) :
    List (List Char) :=
  ["<svg width=".data, "100%".data, " height=".data, "100%".data, " xmlns=".data,
    "http://www.w3.org/2000/svg".data, ">\n  <defs>\n    <radialGradient id=".data,
    (gradientId now).data]
  ++ (stopSegs numStr (">\n      ".data)
      ("\n    </radialGradient>\n  </defs>\n  <rect width=".data) stops
  ++ ["100%".data, " height=".data, "100%".data, " fill=".data,
      "url(#".data ++ (gradientId now).data ++ [')'], " />\n</svg>".data])

/-- Quote-delimited segments shared by the two noise-enabled outputs, from the
filter identifier through the end of the document. -/
def segsNoiseTail (numStr : ℚ → String) (now : ℕ) (noise : NoiseSettings) :
    List (List Char) :=
  [(filterId now).data, " x=".data, "-50%".data, " y=".data, "-50%".data, " width=".data,
    "200%".data, " height=".data, "200%".data, ">\n      <feTurbulence\n        type=".data,
    "fractalNoise".data, "\n        baseFrequency=".data, (numStr noise.baseFrequency).data,
    "\n        numOctaves=".data, (numStr noise.numOctaves).data, "\n        result=".data,
    "turbulence".data, " />\n      <feDisplacementMap\n        in=".data, "SourceGraphic".data,
    "\n        in2=".data, "turbulence".data, "\n        scale=".data, (numStr noise.scale).data,
    "\n        xChannelSelector=".data, "R".data, "\n        yChannelSelector=".data, "G".data,
    " />\n    </filter>\n    <pattern id=".data, (patternId now).data, " width=".data,
    "100%".data, " height=".data, "100%".data, " patternUnits=".data,
    "objectBoundingBox".data, ">\n      <rect width=".data, "100%".data, " height=".data,
    "100%".data, " fill=".data, "url(#".data ++ (gradientId now).data ++ [')'],
    " filter=".data, "url(#".data ++ (filterId now).data ++ [')'],
    " />\n    </pattern>\n  </defs>\n  <rect width=".data, "100%".data, " height=".data,
    "100%".data, " fill=".data, "url(#".data ++ (patternId now).data ++ [')'],
    " />\n</svg>".data]

/-- Quote-delimited segments of the noise-enabled linear SVG output. -/
def segsNoiseLinear (numStr : ℚ → String) (now : ℕ) (stops : List ColorStop)
    (c1 c2 c3 c4 : String) (noise : NoiseSettings) : List (List Char) :=
  ["<svg width=".data, "100%".data, " height=".data, "100%".data, " xmlns=".data,
    "http://www.w3.org/2000/svg".data, ">\n  <defs>\n    <linearGradient id=".data,
    (gradientId now).data, " x1=".data, c1.data ++ ['%'], " y1=".data, c2.data ++ ['%'],
    " x2=".data, c3.data ++ ['%'], " y2=".data, c4.data ++ ['%']]
  ++ (stopSegs numStr (">\n      ".data)
      ("\n    </linearGradient>\n    <filter id=".data) stops
  ++ segsNoiseTail numStr now noise)

/-- Quote-delimited segments of the noise-enabled radial SVG output. -/
def segsNoiseRadial (numStr : ℚ → String) (now : ℕ) (stops : List ColorStop)
    (noise : NoiseSettings) : List (List Char) :=
  ["<svg width=".data, "100%".data, " height=".data, "100%".data, " xmlns=".data,
    "http://www.w3.org/2000/svg".data, ">\n  <defs>\n    <radialGradient id=".data,
    (gradientId now).data]
  ++ (stopSegs numStr (">\n      ".data)
      ("\n    </radialGradient>\n    <filter id=".data) stops
  ++ segsNoiseTail numStr now noise)

/-- Characters that can appear in interpolated fragments without creating an
occurrence of any of the patterns of interest (each of which contains one of
the four excluded characters). -/
def safeChar (c : Char) : Bool := !(c == '<' || c == 'T' || c == 'D' || c == '=')

/-- String containment: the pattern occurs contiguously in the string. -/
def containsStr (s pat : String) : Prop := pat.data <:+: s.data

/-- The four identifiers generated by one `generateSVG` call. -/
def genIds (now : ℕ) : List String := [gradientId now, filterId now, turbulenceId now, patternId now]

/-- Concrete inputs used by the generator witnesses. -/
def wTrig : TrigOps ℚ := ⟨fun x => x, fun x => x, 0⟩

/-- Concrete number renderer used by the generator witnesses. -/
def wStr : ℚ → String := fun _ => "0"

/-- Concrete noise-enabled linear state used by the C2 witness. -/
def wState : AppState :=
  ⟨GradientType.linear, 90, [⟨"1", "#667eea", 0⟩, ⟨"2", "#764ba2", 100⟩],
    ⟨true, 1/50, 3, 20⟩⟩

/-- Concrete radial state used by the C7 witness. -/
def wStateR : AppState :=
  ⟨GradientType.radial, 90, [⟨"1", "#667eea", 0⟩, ⟨"2", "#764ba2", 100⟩],
    ⟨false, 1/50, 3, 20⟩⟩

theorem countSub_nil (p : List Char) : countSub [] p = 0 := rfl

theorem countSub_cons (x : Char) (t p : List Char) :
    countSub (x :: t) p = (if p <+: x :: t then 1 else 0) + countSub t p := rfl

theorem countSub_eq_zero {p l : List Char} {c : Char} (hc : c ∈ p) (hl : c ∉ l) :
    countSub l p = 0 := by
  induction l with
  | nil => rfl
  | cons x t ih =>
    rw [countSub_cons, if_neg (fun h => hl (h.subset hc)),
      ih (fun hmem => hl (List.mem_cons_of_mem x hmem))]

/-- A pattern avoiding the character `b` is a prefix of `l ++ b :: r` exactly
when it is a prefix of `l`. -/
theorem prefix_cut {b : Char} {p : List Char} (hb : b ∉ p) :
    ∀ l r : List Char, (p <+: l ++ b :: r) ↔ (p <+: l) := by
  induction p with
  | nil => intro l r; simp
  | cons x p' ih =>
    intro l r
    cases l with
    | nil =>
      simp only [List.nil_append, List.cons_prefix_cons, List.prefix_nil]
      constructor
      · rintro ⟨rfl, -⟩; exact absurd (List.mem_cons_self x p') hb
      · rintro ⟨⟩
    | cons y l' =>
      simp only [List.cons_append, List.cons_prefix_cons]
      exact and_congr_right (fun _ => ih (fun h => hb (List.mem_cons_of_mem x h)) l' r)

/-- Occurrences cannot straddle a barrier character that the pattern avoids. -/
theorem countSub_append_barrier {b : Char} {p : List Char} (hp : p ≠ []) (hb : b ∉ p) :
    ∀ l₁ l₂ : List Char, countSub (l₁ ++ b :: l₂) p = countSub l₁ p + countSub l₂ p := by
  intro l₁
  induction l₁ with
  | nil =>
    intro l₂
    have hnot : ¬ p <+: b :: l₂ := by
      cases p with
      | nil => exact absurd rfl hp
      | cons c p'' =>
        intro h
        rw [List.cons_prefix_cons] at h
        exact hb (h.1 ▸ List.mem_cons_self c p'')
    simp [countSub_cons, countSub_nil, if_neg hnot]
  | cons x l₁' ih =>
    intro l₂
    have hiff : (p <+: (x :: l₁') ++ b :: l₂) ↔ (p <+: x :: l₁') := prefix_cut hb (x :: l₁') l₂
    rw [List.cons_append] at hiff
    rw [List.cons_append, countSub_cons, countSub_cons, ih l₂]
    simp only [hiff]
    omega

theorem sepJoin_cons (b : Char) (s : List Char) {T : List (List Char)} (hT : T ≠ []) :
    sepJoin b (s :: T) = s ++ b :: sepJoin b T := by
  cases T with
  | nil => exact absurd rfl hT
  | cons t rest => rfl

theorem countSub_sepJoin {b : Char} {p : List Char} (hp : p ≠ []) (hb : b ∉ p) :
    ∀ segs : List (List Char),
      countSub (sepJoin b segs) p = (segs.map (fun s => countSub s p)).sum := by
  intro segs
  induction segs with
  | nil => simp [sepJoin, countSub_nil]
  | cons s rest ih =>
    cases rest with
    | nil => simp [sepJoin]
    | cons t rest' =>
      rw [sepJoin_cons b s (by simp), countSub_append_barrier hp hb, ih]
      simp

theorem sepJoin_cons_append (b : Char) (u v : List Char) (Y : List (List Char)) :
    sepJoin b ((u ++ v) :: Y) = u ++ sepJoin b (v :: Y) := by
  cases Y with
  | nil => rfl
  | cons y Y' => simp [sepJoin, List.append_assoc]

theorem sepJoin_append (b : Char) :
    ∀ X Y : List (List Char), X ≠ [] → Y ≠ [] →
      sepJoin b (X ++ Y) = sepJoin b X ++ b :: sepJoin b Y := by
  intro X
  induction X with
  | nil => intro Y hX _; exact absurd rfl hX
  | cons x X' ih =>
    intro Y _ hY
    cases X' with
    | nil =>
      cases Y with
      | nil => exact absurd rfl hY
      | cons y Y' => rfl
    | cons x₂ X'' =>
      rw [List.cons_append, sepJoin_cons b x (by simp),
        sepJoin_cons b x (by simp), ih Y (by simp) hY]
      simp [List.append_assoc]

theorem infix_of_infix_cons_append {a t : List Char} (s : List Char) (b : Char)
    (h : a <:+: t) : a <:+: s ++ b :: t := by
  obtain ⟨u, v, rfl⟩ := h
  exact ⟨s ++ b :: u, v, by simp⟩

/-- A contiguous middle run of segments, together with its flanking barrier
characters, a suffix of the preceding segment and a prefix of the following
segment, is an infix of the joined list. -/
theorem sepJoin_infix_run (X : List (List Char)) (pre suf : List Char)
    (M : List (List Char)) (hM : M ≠ []) (pfx rest : List Char) (Y : List (List Char)) :
    (suf ++ '"' :: sepJoin '"' M ++ '"' :: pfx) <:+:
      sepJoin '"' (X ++ (pre ++ suf) :: (M ++ (pfx ++ rest) :: Y)) := by
  induction X with
  | nil =>
    have hM' : M ++ (pfx ++ rest) :: Y ≠ [] := by cases M <;> simp
    rw [List.nil_append, sepJoin_cons '"' (pre ++ suf) hM',
      sepJoin_append '"' M ((pfx ++ rest) :: Y) hM (by simp),
      sepJoin_cons_append]
    exact ⟨pre, sepJoin '"' (rest :: Y), by simp [List.append_assoc]⟩
  | cons x X' ih =>
    have hX' : X' ++ (pre ++ suf) :: (M ++ (pfx ++ rest) :: Y) ≠ [] := by cases X' <;> simp
    rw [List.cons_append, sepJoin_cons '"' x hX']
    exact infix_of_infix_cons_append x '"' ih

theorem toDigitsCore_eq_digits {b : ℕ} (hb : 1 < b) :
    ∀ fuel n acc, 0 < n → n < fuel →
      Nat.toDigitsCore b fuel n acc = ((Nat.digits b n).map Nat.digitChar).reverse ++ acc := by
  intro fuel
  induction fuel with
  | zero => intro n acc h₁ h₂; omega
  | succ f ih =>
    intro n acc hn hf
    rw [Nat.digits_def' hb hn]
    show (if n / b = 0 then Nat.digitChar (n % b) :: acc
      else Nat.toDigitsCore b f (n / b) (Nat.digitChar (n % b) :: acc)) = _
    by_cases hq : n / b = 0
    · rw [if_pos hq, hq]
      simp
    · rw [if_neg hq,
        ih (n / b) (Nat.digitChar (n % b) :: acc) (Nat.pos_of_ne_zero hq)
          (by
            have h₁ : n / b < n := Nat.div_lt_self hn hb
            omega)]
      simp [List.append_assoc]

theorem toDigits_eq_digits {b : ℕ} (hb : 1 < b) {n : ℕ} (hn : 0 < n) :
    Nat.toDigits b n = ((Nat.digits b n).map Nat.digitChar).reverse := by
  rw [show Nat.toDigits b n = Nat.toDigitsCore b (n + 1) n [] from rfl,
    toDigitsCore_eq_digits hb (n + 1) n [] hn (by omega), List.append_nil]

theorem toDigits_zero (b : ℕ) : Nat.toDigits b 0 = ['0'] := by
  show Nat.toDigitsCore b 1 0 [] = ['0']
  simp [Nat.toDigitsCore]
  decide

theorem digitChar_isDigit : ∀ d : Fin 10, (Nat.digitChar d.val).isDigit = true := by decide

theorem digitChar_isHex : ∀ d : Fin 16, isHexDigitChar (Nat.digitChar d.val) = true := by decide

theorem digitChar_inj_of_lt : ∀ d e : Fin 16, Nat.digitChar d.val = Nat.digitChar e.val → d = e := by
  decide

theorem natStr_chars (n : ℕ) : ∀ c ∈ (natStr n).data, c.isDigit = true := by
  intro c hc
  have hdata : (natStr n).data = Nat.toDigits 10 n := rfl
  rw [hdata] at hc
  rcases Nat.eq_zero_or_pos n with h0 | hpos
  · rw [h0, toDigits_zero] at hc
    simp at hc
    rw [hc]; rfl
  · rw [toDigits_eq_digits (by norm_num) hpos, List.mem_reverse, List.mem_map] at hc
    obtain ⟨d, hd, rfl⟩ := hc
    have hlt : d < 10 := Nat.digits_lt_base (by norm_num) hd
    exact digitChar_isDigit ⟨d, hlt⟩

theorem natHexStr_chars (n : ℕ) : ∀ c ∈ (natHexStr n).data, isHexDigitChar c = true := by
  intro c hc
  have hdata : (natHexStr n).data = Nat.toDigits 16 n := rfl
  rw [hdata] at hc
  rcases Nat.eq_zero_or_pos n with h0 | hpos
  · rw [h0, toDigits_zero] at hc
    simp at hc
    rw [hc]; rfl
  · rw [toDigits_eq_digits (by norm_num) hpos, List.mem_reverse, List.mem_map] at hc
    obtain ⟨d, hd, rfl⟩ := hc
    have hlt : d < 16 := Nat.digits_lt_base (by norm_num) hd
    exact digitChar_isHex ⟨d, hlt⟩

theorem natHexStr_length {n : ℕ} (h : n < 16 ^ 6) : (natHexStr n).data.length ≤ 6 := by
  have hdata : (natHexStr n).data = Nat.toDigits 16 n := rfl
  rw [hdata]
  rcases Nat.eq_zero_or_pos n with h0 | hpos
  · rw [h0, toDigits_zero]; simp
  · rw [toDigits_eq_digits (by norm_num) hpos]
    rw [List.length_reverse, List.length_map,
      Nat.digits_len 16 n (by norm_num) (Nat.pos_iff_ne_zero.mp hpos)]
    have hlog : Nat.log 16 n < 6 :=
      (Nat.lt_pow_iff_log_lt (by norm_num) (Nat.pos_iff_ne_zero.mp hpos)).mp h
    omega

theorem map_digitChar_inj :
    ∀ l₁ l₂ : List ℕ, (∀ d ∈ l₁, d < 16) → (∀ d ∈ l₂, d < 16) →
      l₁.map Nat.digitChar = l₂.map Nat.digitChar → l₁ = l₂ := by
  intro l₁
  induction l₁ with
  | nil => intro l₂ _ _ h; cases l₂ <;> simp_all
  | cons a t ih =>
    intro l₂ h₁ h₂ h
    cases l₂ with
    | nil => simp at h
    | cons a' t' =>
      simp only [List.map_cons, List.cons.injEq] at h
      have ha : a < 16 := h₁ a (List.mem_cons_self a t)
      have ha' : a' < 16 := h₂ a' (List.mem_cons_self a' t')
      have heq : (⟨a, ha⟩ : Fin 16) = ⟨a', ha'⟩ := digitChar_inj_of_lt ⟨a, ha⟩ ⟨a', ha'⟩ h.1
      have hval : a = a' := congrArg Fin.val heq
      rw [hval, ih t' (fun d hd => h₁ d (List.mem_cons_of_mem a hd))
        (fun d hd => h₂ d (List.mem_cons_of_mem a' hd)) h.2]

theorem natStr_injective : Function.Injective natStr := by
  intro n m h
  have hdig : Nat.toDigits 10 n = Nat.toDigits 10 m := congrArg String.data h
  have key : ∀ k : ℕ, 0 < k → Nat.toDigits 10 k ≠ ['0'] := by
    intro k hk hcon
    rw [toDigits_eq_digits (by norm_num) hk] at hcon
    have hlen : ((Nat.digits 10 k).map Nat.digitChar).reverse.length = 1 := by rw [hcon]; rfl
    rw [List.length_reverse, List.length_map] at hlen
    obtain ⟨d, hd⟩ : ∃ d, Nat.digits 10 k = [d] := by
      cases hdk : Nat.digits 10 k with
      | nil => rw [hdk] at hlen; simp at hlen
      | cons d rest =>
        rw [hdk] at hlen
        simp at hlen
        exact ⟨d, by rw [hlen]⟩
    have hcon' : Nat.digitChar d = '0' := by rw [hd] at hcon; simpa using hcon
    have hdlt : d < 10 := Nat.digits_lt_base (by norm_num) (hd ▸ List.mem_singleton_self d)
    have hfin : (⟨d, by omega⟩ : Fin 16) = ⟨0, by omega⟩ :=
      digitChar_inj_of_lt ⟨d, by omega⟩ ⟨0, by omega⟩ (by simpa using hcon')
    have hd0 : d = 0 := congrArg Fin.val hfin
    have hk0 : k = 0 := by
      have hof := Nat.ofDigits_digits 10 k
      rw [hd, hd0] at hof
      simpa using hof.symm
    omega
  rcases Nat.eq_zero_or_pos n with hn0 | hnpos <;> rcases Nat.eq_zero_or_pos m with hm0 | hmpos
  · omega
  · subst hn0
    rw [toDigits_zero 10] at hdig
    exact absurd hdig.symm (key m hmpos)
  · subst hm0
    rw [toDigits_zero 10] at hdig
    exact absurd hdig (key n hnpos)
  · rw [toDigits_eq_digits (by norm_num) hnpos, toDigits_eq_digits (by norm_num) hmpos] at hdig
    have hmap := List.reverse_injective hdig
    have hdigs : Nat.digits 10 n = Nat.digits 10 m :=
      map_digitChar_inj _ _
        (fun d hd => lt_trans (Nat.digits_lt_base (by norm_num) hd) (by norm_num))
        (fun d hd => lt_trans (Nat.digits_lt_base (by norm_num) hd) (by norm_num)) hmap
    calc n = Nat.ofDigits 10 (Nat.digits 10 n) := (Nat.ofDigits_digits 10 n).symm
    _ = Nat.ofDigits 10 (Nat.digits 10 m) := by rw [hdigs]
    _ = m := Nat.ofDigits_digits 10 m

theorem stopSegs_ne_nil (numStr : ℚ → String) (gL gR : List Char) (stops : List ColorStop) :
    stopSegs numStr gL gR stops ≠ [] := by
  cases stops with
  | nil => simp [stopSegs]
  | cons s rest => cases rest <;> simp [stopSegs]

theorem sepJoin_stopSegs (numStr : ℚ → String) :
    ∀ (stops : List ColorStop) (gL gR : List Char),
      sepJoin '"' (stopSegs numStr gL gR stops)
        = gL ++ (joinSep "\n      " (stops.map (stopLine numStr))).data ++ gR := by
  intro stops
  induction stops with
  | nil => intro gL gR; simp [stopSegs, sepJoin, joinSep]
  | cons s rest ih =>
    intro gL gR
    cases rest with
    | nil =>
      have ha : "<stop offset=\"".data = "<stop offset=".data ++ ['"'] := by decide
      have hb : "%\" stop-color=\"".data = '%' :: '"' :: (" stop-color=".data ++ ['"']) := by
        decide
      have hc : "\" />".data = '"' :: " />".data := by decide
      simp only [stopSegs, sepJoin, joinSep, List.map_cons, List.map_nil, stopLine,
        String.data_append, ha, hb, hc, List.append_assoc, List.cons_append,
        List.nil_append, List.singleton_append]
    | cons t rest' =>
      have ha : "<stop offset=\"".data = "<stop offset=".data ++ ['"'] := by decide
      have hb : "%\" stop-color=\"".data = '%' :: '"' :: (" stop-color=".data ++ ['"']) := by
        decide
      have hd : "\" />\n      ".data = '"' :: " />\n      ".data := by decide
      have hjoin : joinSep "\n      " ((s :: t :: rest').map (stopLine numStr))
          = stopLine numStr s ++ "\n      " ++ joinSep "\n      " ((t :: rest').map (stopLine numStr)) := rfl
      have hrec := ih (" />\n      ".data) gR
      rw [show stopSegs numStr gL gR (s :: t :: rest')
          = (gL ++ "<stop offset=".data) :: ((numStr s.offset).data ++ ['%']) ::
            " stop-color=".data :: s.color.data ::
              stopSegs numStr (" />\n      ".data) gR (t :: rest') from rfl]
      rw [sepJoin_cons _ _ (by simp), sepJoin_cons _ _ (by simp),
        sepJoin_cons _ _ (by simp),
        sepJoin_cons _ _ (stopSegs_ne_nil numStr _ gR (t :: rest')), hrec, hjoin]
      simp only [stopLine, String.data_append, ha, hb, hd, List.append_assoc,
        List.cons_append, List.nil_append]

theorem generateSVG_plainLinear_data {α : Type} [Field α] (T : TrigOps α)
    (coordStr : α → String) (numStr : ℚ → String) (now : ℕ) (angle : ℚ)
    (stops : List ColorStop) (noise : NoiseSettings) (hn : noise.enabled = false) :
    (generateSVG T coordStr numStr now ⟨GradientType.linear, angle, stops, noise⟩).data
      = sepJoin '"' (segsPlainLinear numStr now stops
          (coordStr (50 + 50 * T.cos (((angle : α) - 90) * T.pi / 180)))
          (coordStr (50 + 50 * T.sin (((angle : α) - 90) * T.pi / 180)))
          (coordStr (50 - 50 * T.cos (((angle : α) - 90) * T.pi / 180)))
          (coordStr (50 - 50 * T.sin (((angle : α) - 90) * T.pi / 180)))) := by
  have hL1 : "<svg width=\"100%\" height=\"100%\" xmlns=\"http://www.w3.org/2000/svg\">\n  <defs>\n    <linearGradient id=\"".data
      = "<svg width=".data ++ '"' :: "100%".data ++ '"' :: " height=".data ++ '"' ::
        "100%".data ++ '"' :: " xmlns=".data ++ '"' :: "http://www.w3.org/2000/svg".data
        ++ '"' :: ">\n  <defs>\n    <linearGradient id=".data ++ ['"'] := by decide
  have hL2 : "\" x1=\"".data = '"' :: " x1=".data ++ ['"'] := by decide
  have hL3 : "%\" y1=\"".data = '%' :: '"' :: (" y1=".data ++ ['"']) := by decide
  have hL4 : "%\" x2=\"".data = '%' :: '"' :: (" x2=".data ++ ['"']) := by decide
  have hL5 : "%\" y2=\"".data = '%' :: '"' :: (" y2=".data ++ ['"']) := by decide
  have hL6 : "%\">\n      ".data = '%' :: '"' :: ">\n      ".data := by decide
  have hL7 : "\n    </linearGradient>\n  </defs>\n  <rect width=\"100%\" height=\"100%\" fill=\"url(#".data
      = "\n    </linearGradient>\n  </defs>\n  <rect width=".data ++ '"' :: "100%".data
        ++ '"' :: " height=".data ++ '"' :: "100%".data ++ '"' :: " fill=".data
        ++ '"' :: "url(#".data := by decide
  have hL8 : ")\" />\n</svg>".data = ')' :: '"' :: " />\n</svg>".data := by decide
  rw [segsPlainLinear,
    sepJoin_append '"' _ _ (by simp)
      (List.append_ne_nil_of_left_ne_nil (stopSegs_ne_nil _ _ _ _) _),
    sepJoin_append '"' _ _ (stopSegs_ne_nil _ _ _ _) (by simp),
    sepJoin_stopSegs]
  simp only [generateSVG, hn, Bool.false_eq_true, if_false, sepJoin,
    String.data_append, hL1, hL2, hL3, hL4, hL5, hL6, hL7, hL8,
    List.append_assoc, List.cons_append, List.nil_append]

theorem generateSVG_plainRadial_data {α : Type} [Field α] (T : TrigOps α)
    (coordStr : α → String) (numStr : ℚ → String) (now : ℕ) (angle : ℚ)
    (stops : List ColorStop) (noise : NoiseSettings) (hn : noise.enabled = false) :
    (generateSVG T coordStr numStr now ⟨GradientType.radial, angle, stops, noise⟩).data
      = sepJoin '"' (segsPlainRadial numStr now stops) := by
  have hR1 : "<svg width=\"100%\" height=\"100%\" xmlns=\"http://www.w3.org/2000/svg\">\n  <defs>\n    <radialGradient id=\"".data
      = "<svg width=".data ++ '"' :: "100%".data ++ '"' :: " height=".data ++ '"' ::
        "100%".data ++ '"' :: " xmlns=".data ++ '"' :: "http://www.w3.org/2000/svg".data
        ++ '"' :: ">\n  <defs>\n    <radialGradient id=".data ++ ['"'] := by decide
  have hR2 : "\">\n      ".data = '"' :: ">\n      ".data := by decide
  have hR7 : "\n    </radialGradient>\n  </defs>\n  <rect width=\"100%\" height=\"100%\" fill=\"url(#".data
      = "\n    </radialGradient>\n  </defs>\n  <rect width=".data ++ '"' :: "100%".data
        ++ '"' :: " height=".data ++ '"' :: "100%".data ++ '"' :: " fill=".data
        ++ '"' :: "url(#".data := by decide
  have hL8 : ")\" />\n</svg>".data = ')' :: '"' :: " />\n</svg>".data := by decide
  rw [segsPlainRadial,
    sepJoin_append '"' _ _ (by simp)
      (List.append_ne_nil_of_left_ne_nil (stopSegs_ne_nil _ _ _ _) _),
    sepJoin_append '"' _ _ (stopSegs_ne_nil _ _ _ _) (by simp),
    sepJoin_stopSegs]
  simp only [generateSVG, hn, Bool.false_eq_true, if_false, sepJoin,
    String.data_append, hR1, hR2, hR7, hL8,
    List.append_assoc, List.cons_append, List.nil_append]

theorem generateSVG_noiseLinear_data {α : Type} [Field α] (T : TrigOps α)
    (coordStr : α → String) (numStr : ℚ → String) (now : ℕ) (angle : ℚ)
    (stops : List ColorStop) (noise : NoiseSettings) (hn : noise.enabled = true) :
    (generateSVG T coordStr numStr now ⟨GradientType.linear, angle, stops, noise⟩).data
      = sepJoin '"' (segsNoiseLinear numStr now stops
          (coordStr (50 + 50 * T.cos (((angle : α) - 90) * T.pi / 180)))
          (coordStr (50 + 50 * T.sin (((angle : α) - 90) * T.pi / 180)))
          (coordStr (50 - 50 * T.cos (((angle : α) - 90) * T.pi / 180)))
          (coordStr (50 - 50 * T.sin (((angle : α) - 90) * T.pi / 180))) noise) := by
  have hL1 : "<svg width=\"100%\" height=\"100%\" xmlns=\"http://www.w3.org/2000/svg\">\n  <defs>\n    <linearGradient id=\"".data
      = "<svg width=".data ++ '"' :: "100%".data ++ '"' :: " height=".data ++ '"' ::
        "100%".data ++ '"' :: " xmlns=".data ++ '"' :: "http://www.w3.org/2000/svg".data
        ++ '"' :: ">\n  <defs>\n    <linearGradient id=".data ++ ['"'] := by decide
  have hL2 : "\" x1=\"".data = '"' :: " x1=".data ++ ['"'] := by decide
  have hL3 : "%\" y1=\"".data = '%' :: '"' :: (" y1=".data ++ ['"']) := by decide
  have hL4 : "%\" x2=\"".data = '%' :: '"' :: (" x2=".data ++ ['"']) := by decide
  have hL5 : "%\" y2=\"".data = '%' :: '"' :: (" y2=".data ++ ['"']) := by decide
  have hL6 : "%\">\n      ".data = '%' :: '"' :: ">\n      ".data := by decide
  have hN7 : "\n    </linearGradient>\n    <filter id=\"".data
      = "\n    </linearGradient>\n    <filter id=".data ++ ['"'] := by decide
  have hN8 : "\" x=\"-50%\" y=\"-50%\" width=\"200%\" height=\"200%\">\n      <feTurbulence\n        type=\"fractalNoise\"\n        baseFrequency=\"".data
      = '"' :: " x=".data ++ '"' :: "-50%".data ++ '"' :: " y=".data ++ '"' :: "-50%".data
        ++ '"' :: " width=".data ++ '"' :: "200%".data ++ '"' :: " height=".data
        ++ '"' :: "200%".data ++ '"' :: ">\n      <feTurbulence\n        type=".data
        ++ '"' :: "fractalNoise".data ++ '"' :: "\n        baseFrequency=".data
        ++ ['"'] := by decide
  have hN9 : "\"\n        numOctaves=\"".data
      = '"' :: "\n        numOctaves=".data ++ ['"'] := by decide
  have hN10 : "\"\n        result=\"turbulence\" />\n      <feDisplacementMap\n        in=\"SourceGraphic\"\n        in2=\"turbulence\"\n        scale=\"".data
      = '"' :: "\n        result=".data ++ '"' :: "turbulence".data
        ++ '"' :: " />\n      <feDisplacementMap\n        in=".data
        ++ '"' :: "SourceGraphic".data ++ '"' :: "\n        in2=".data
        ++ '"' :: "turbulence".data ++ '"' :: "\n        scale=".data ++ ['"'] := by decide
  have hN11 : "\"\n        xChannelSelector=\"R\"\n        yChannelSelector=\"G\" />\n    </filter>\n    <pattern id=\"".data
      = '"' :: "\n        xChannelSelector=".data ++ '"' :: "R".data
        ++ '"' :: "\n        yChannelSelector=".data ++ '"' :: "G".data
        ++ '"' :: " />\n    </filter>\n    <pattern id=".data ++ ['"'] := by decide
  have hN12 : "\" width=\"100%\" height=\"100%\" patternUnits=\"objectBoundingBox\">\n      <rect width=\"100%\" height=\"100%\" fill=\"url(#".data
      = '"' :: " width=".data ++ '"' :: "100%".data ++ '"' :: " height=".data
        ++ '"' :: "100%".data ++ '"' :: " patternUnits=".data
        ++ '"' :: "objectBoundingBox".data ++ '"' :: ">\n      <rect width=".data
        ++ '"' :: "100%".data ++ '"' :: " height=".data ++ '"' :: "100%".data
        ++ '"' :: " fill=".data ++ '"' :: "url(#".data := by decide
  have hN13 : ")\" filter=\"url(#".data
      = ')' :: '"' :: " filter=".data ++ '"' :: "url(#".data := by decide
  have hN14 : ")\" />\n    </pattern>\n  </defs>\n  <rect width=\"100%\" height=\"100%\" fill=\"url(#".data
      = ')' :: '"' :: " />\n    </pattern>\n  </defs>\n  <rect width=".data
        ++ '"' :: "100%".data ++ '"' :: " height=".data ++ '"' :: "100%".data
        ++ '"' :: " fill=".data ++ '"' :: "url(#".data := by decide
  have hL8 : ")\" />\n</svg>".data = ')' :: '"' :: " />\n</svg>".data := by decide
  rw [segsNoiseLinear,
    sepJoin_append '"' _ _ (by simp)
      (List.append_ne_nil_of_left_ne_nil (stopSegs_ne_nil _ _ _ _) _),
    sepJoin_append '"' _ _ (stopSegs_ne_nil _ _ _ _) (by simp [segsNoiseTail]),
    sepJoin_stopSegs]
  simp only [generateSVG, hn, if_true, segsNoiseTail, sepJoin,
    String.data_append, hL1, hL2, hL3, hL4, hL5, hL6, hN7, hN8, hN9, hN10, hN11, hN12,
    hN13, hN14, hL8, List.append_assoc, List.cons_append, List.nil_append]

theorem generateSVG_noiseRadial_data {α : Type} [Field α] (T : TrigOps α)
    (coordStr : α → String) (numStr : ℚ → String) (now : ℕ) (angle : ℚ)
    (stops : List ColorStop) (noise : NoiseSettings) (hn : noise.enabled = true) :
    (generateSVG T coordStr numStr now ⟨GradientType.radial, angle, stops, noise⟩).data
      = sepJoin '"' (segsNoiseRadial numStr now stops noise) := by
  have hR1 : "<svg width=\"100%\" height=\"100%\" xmlns=\"http://www.w3.org/2000/svg\">\n  <defs>\n    <radialGradient id=\"".data
      = "<svg width=".data ++ '"' :: "100%".data ++ '"' :: " height=".data ++ '"' ::
        "100%".data ++ '"' :: " xmlns=".data ++ '"' :: "http://www.w3.org/2000/svg".data
        ++ '"' :: ">\n  <defs>\n    <radialGradient id=".data ++ ['"'] := by decide
  have hR2 : "\">\n      ".data = '"' :: ">\n      ".data := by decide
  have hNR7 : "\n    </radialGradient>\n    <filter id=\"".data
      = "\n    </radialGradient>\n    <filter id=".data ++ ['"'] := by decide
  have hN8 : "\" x=\"-50%\" y=\"-50%\" width=\"200%\" height=\"200%\">\n      <feTurbulence\n        type=\"fractalNoise\"\n        baseFrequency=\"".data
      = '"' :: " x=".data ++ '"' :: "-50%".data ++ '"' :: " y=".data ++ '"' :: "-50%".data
        ++ '"' :: " width=".data ++ '"' :: "200%".data ++ '"' :: " height=".data
        ++ '"' :: "200%".data ++ '"' :: ">\n      <feTurbulence\n        type=".data
        ++ '"' :: "fractalNoise".data ++ '"' :: "\n        baseFrequency=".data
        ++ ['"'] := by decide
  have hN9 : "\"\n        numOctaves=\"".data
      = '"' :: "\n        numOctaves=".data ++ ['"'] := by decide
  have hN10 : "\"\n        result=\"turbulence\" />\n      <feDisplacementMap\n        in=\"SourceGraphic\"\n        in2=\"turbulence\"\n        scale=\"".data
      = '"' :: "\n        result=".data ++ '"' :: "turbulence".data
        ++ '"' :: " />\n      <feDisplacementMap\n        in=".data
        ++ '"' :: "SourceGraphic".data ++ '"' :: "\n        in2=".data
        ++ '"' :: "turbulence".data ++ '"' :: "\n        scale=".data ++ ['"'] := by decide
  have hN11 : "\"\n        xChannelSelector=\"R\"\n        yChannelSelector=\"G\" />\n    </filter>\n    <pattern id=\"".data
      = '"' :: "\n        xChannelSelector=".data ++ '"' :: "R".data
        ++ '"' :: "\n        yChannelSelector=".data ++ '"' :: "G".data
        ++ '"' :: " />\n    </filter>\n    <pattern id=".data ++ ['"'] := by decide
  have hN12 : "\" width=\"100%\" height=\"100%\" patternUnits=\"objectBoundingBox\">\n      <rect width=\"100%\" height=\"100%\" fill=\"url(#".data
      = '"' :: " width=".data ++ '"' :: "100%".data ++ '"' :: " height=".data
        ++ '"' :: "100%".data ++ '"' :: " patternUnits=".data
        ++ '"' :: "objectBoundingBox".data ++ '"' :: ">\n      <rect width=".data
        ++ '"' :: "100%".data ++ '"' :: " height=".data ++ '"' :: "100%".data
        ++ '"' :: " fill=".data ++ '"' :: "url(#".data := by decide
  have hN13 : ")\" filter=\"url(#".data
      = ')' :: '"' :: " filter=".data ++ '"' :: "url(#".data := by decide
  have hN14 : ")\" />\n    </pattern>\n  </defs>\n  <rect width=\"100%\" height=\"100%\" fill=\"url(#".data
      = ')' :: '"' :: " />\n    </pattern>\n  </defs>\n  <rect width=".data
        ++ '"' :: "100%".data ++ '"' :: " height=".data ++ '"' :: "100%".data
        ++ '"' :: " fill=".data ++ '"' :: "url(#".data := by decide
  have hL8 : ")\" />\n</svg>".data = ')' :: '"' :: " />\n</svg>".data := by decide
  rw [segsNoiseRadial,
    sepJoin_append '"' _ _ (by simp)
      (List.append_ne_nil_of_left_ne_nil (stopSegs_ne_nil _ _ _ _) _),
    sepJoin_append '"' _ _ (stopSegs_ne_nil _ _ _ _) (by simp [segsNoiseTail]),
    sepJoin_stopSegs]
  simp only [generateSVG, hn, if_true, segsNoiseRadial, segsNoiseTail, sepJoin,
    String.data_append, hR1, hR2, hNR7, hN8, hN9, hN10, hN11, hN12,
    hN13, hN14, hL8, List.append_assoc, List.cons_append, List.nil_append]

theorem countSub_zero_of_safe (c : Char) {l p : List Char} (hc : c ∈ p)
    (hsafe : safeChar c = false) (hall : ∀ ch ∈ l, safeChar ch = true) :
    countSub l p = 0 :=
  countSub_eq_zero hc (fun hmem => by rw [hall c hmem] at hsafe; cases hsafe)

theorem safe_of_isDigit {ch : Char} (h : ch.isDigit = true) : safeChar ch = true := by
  by_contra hcon
  rw [Bool.not_eq_true] at hcon
  simp only [safeChar, Bool.not_eq_false', Bool.or_eq_true, beq_iff_eq] at hcon
  rcases hcon with ((rfl | rfl) | rfl) | rfl <;> exact absurd h (by decide)

theorem safe_of_isHexDigitChar {ch : Char} (h : isHexDigitChar ch = true) :
    safeChar ch = true := by
  by_contra hcon
  rw [Bool.not_eq_true] at hcon
  simp only [safeChar, Bool.not_eq_false', Bool.or_eq_true, beq_iff_eq] at hcon
  rcases hcon with ((rfl | rfl) | rfl) | rfl <;> exact absurd h (by decide)

theorem safe_append {l₁ l₂ : List Char} (h₁ : ∀ ch ∈ l₁, safeChar ch = true)
    (h₂ : ∀ ch ∈ l₂, safeChar ch = true) : ∀ ch ∈ l₁ ++ l₂, safeChar ch = true := by
  intro ch hch
  rcases List.mem_append.mp hch with h | h
  · exact h₁ ch h
  · exact h₂ ch h

theorem safe_natStr (n : ℕ) : ∀ ch ∈ (natStr n).data, safeChar ch = true :=
  fun ch hch => safe_of_isDigit (natStr_chars n ch hch)

theorem safe_gradientId (now : ℕ) : ∀ ch ∈ (gradientId now).data, safeChar ch = true := by
  intro ch hch
  rw [show (gradientId now).data = "gradient-".data ++ (natStr now).data from rfl] at hch
  exact safe_append (by decide) (safe_natStr now) ch hch

theorem safe_filterId (now : ℕ) : ∀ ch ∈ (filterId now).data, safeChar ch = true := by
  intro ch hch
  rw [show (filterId now).data = "filter-".data ++ (natStr now).data from rfl] at hch
  exact safe_append (by decide) (safe_natStr now) ch hch

theorem safe_patternId (now : ℕ) : ∀ ch ∈ (patternId now).data, safeChar ch = true := by
  intro ch hch
  rw [show (patternId now).data = "pattern-".data ++ (natStr now).data from rfl] at hch
  exact safe_append (by decide) (safe_natStr now) ch hch

theorem safe_hexColor {s : String} (h : isHexColor s = true) :
    ∀ ch ∈ s.data, safeChar ch = true := by
  intro ch hch
  cases hd : s.data with
  | nil => rw [hd] at hch; exact absurd hch (List.not_mem_nil ch)
  | cons c0 rest =>
    rw [hd] at hch
    simp only [isHexColor, hd, Bool.and_eq_true, beq_iff_eq, List.all_eq_true] at h
    rcases List.mem_cons.mp hch with rfl | hmem
    · rw [h.1.1]; decide
    · exact safe_of_isHexDigitChar (h.2 ch hmem)

/-- A safe single extra character appended to a safe fragment stays safe. -/
theorem safe_push {l : List Char} {c : Char} (h : ∀ ch ∈ l, safeChar ch = true)
    (hc : safeChar c = true) : ∀ ch ∈ l ++ [c], safeChar ch = true :=
  safe_append h (by intro ch hch; rw [List.mem_singleton.mp hch]; exact hc)

/-- The stop lines of the generated SVG contribute no occurrence of a pattern
containing an unsafe character, provided the pattern occurs in none of the
fixed fragments surrounding the interpolated offsets and colors. -/
theorem stopSegs_count_zero (numStr : ℚ → String) (p : List Char) (c : Char)
    (hc : c ∈ p) (hsafe : safeChar c = false)
    (hnum : ∀ q : ℚ, ∀ ch ∈ (numStr q).data, safeChar ch = true)
    (hmid : countSub " stop-color=".data p = 0)
    (hin1 : countSub (" />\n      ".data ++ "<stop offset=".data) p = 0)
    (gR : List Char)
    (hend : countSub (" />".data ++ gR) p = 0)
    (hinnil : countSub (" />\n      ".data ++ gR) p = 0) :
    ∀ (stops : List ColorStop),
      (∀ s ∈ stops, ∀ ch ∈ (ColorStop.color s).data, safeChar ch = true) →
      ∀ (gL : List Char),
        countSub (gL ++ "<stop offset=".data) p = 0 →
        countSub (gL ++ gR) p = 0 →
        ((stopSegs numStr gL gR stops).map (fun s => countSub s p)).sum = 0 := by
  intro stops
  induction stops with
  | nil =>
    intro _ gL _ hgLnil
    simp [stopSegs, hgLnil]
  | cons s rest ih =>
    intro hcols gL hgL1 hgLnil
    have hoff : countSub ((numStr s.offset).data ++ ['%']) p = 0 :=
      countSub_zero_of_safe c hc hsafe (safe_push (hnum s.offset) (by decide))
    have hcol : countSub (ColorStop.color s).data p = 0 :=
      countSub_zero_of_safe c hc hsafe (hcols s (List.mem_cons_self s rest))
    cases rest with
    | nil =>
      have hend' : countSub (' ' :: '/' :: '>' :: gR) p = 0 := hend
      simp [stopSegs, hgL1, hoff, hmid, hcol, hend']
    | cons t rest' =>
      have hrec := ih (fun s' hs' => hcols s' (List.mem_cons_of_mem s hs'))
        (" />\n      ".data) hin1 hinnil
      simp [stopSegs, hgL1, hoff, hmid, hcol, hrec]

theorem segsNoiseTail_count_fT (numStr : ℚ → String) (now : ℕ) (noise : NoiseSettings)
    (hnum : ∀ q : ℚ, ∀ ch ∈ (numStr q).data, safeChar ch = true) :
    ((segsNoiseTail numStr now noise).map (fun s => countSub s "feTurbulence".data)).sum
      = 1 := by
  have hfid : countSub (filterId now).data "feTurbulence".data = 0 :=
    countSub_zero_of_safe 'T' (by decide) (by decide) (safe_filterId now)
  have hpid : countSub (patternId now).data "feTurbulence".data = 0 :=
    countSub_zero_of_safe 'T' (by decide) (by decide) (safe_patternId now)
  have hbf : countSub (numStr noise.baseFrequency).data "feTurbulence".data = 0 :=
    countSub_zero_of_safe 'T' (by decide) (by decide) (hnum _)
  have hno : countSub (numStr noise.numOctaves).data "feTurbulence".data = 0 :=
    countSub_zero_of_safe 'T' (by decide) (by decide) (hnum _)
  have hsc : countSub (numStr noise.scale).data "feTurbulence".data = 0 :=
    countSub_zero_of_safe 'T' (by decide) (by decide) (hnum _)
  have hu1 : countSub ("url(#".data ++ (gradientId now).data ++ [')'])
      "feTurbulence".data = 0 :=
    countSub_zero_of_safe 'T' (by decide) (by decide)
      (safe_push (safe_append (by decide) (safe_gradientId now)) (by decide))
  have hu2 : countSub ("url(#".data ++ (filterId now).data ++ [')'])
      "feTurbulence".data = 0 :=
    countSub_zero_of_safe 'T' (by decide) (by decide)
      (safe_push (safe_append (by decide) (safe_filterId now)) (by decide))
  have hu3 : countSub ("url(#".data ++ (patternId now).data ++ [')'])
      "feTurbulence".data = 0 :=
    countSub_zero_of_safe 'T' (by decide) (by decide)
      (safe_push (safe_append (by decide) (safe_patternId now)) (by decide))
  simp only [segsNoiseTail, List.map_cons, List.map_nil, List.sum_cons, List.sum_nil,
    hfid, hpid, hbf, hno, hsc, hu1, hu2, hu3]
  decide

theorem segsNoiseTail_count_fD (numStr : ℚ → String) (now : ℕ) (noise : NoiseSettings)
    (hnum : ∀ q : ℚ, ∀ ch ∈ (numStr q).data, safeChar ch = true) :
    ((segsNoiseTail numStr now noise).map (fun s => countSub s "feDisplacementMap".data)).sum
      = 1 := by
  have hfid : countSub (filterId now).data "feDisplacementMap".data = 0 :=
    countSub_zero_of_safe 'D' (by decide) (by decide) (safe_filterId now)
  have hpid : countSub (patternId now).data "feDisplacementMap".data = 0 :=
    countSub_zero_of_safe 'D' (by decide) (by decide) (safe_patternId now)
  have hbf : countSub (numStr noise.baseFrequency).data "feDisplacementMap".data = 0 :=
    countSub_zero_of_safe 'D' (by decide) (by decide) (hnum _)
  have hno : countSub (numStr noise.numOctaves).data "feDisplacementMap".data = 0 :=
    countSub_zero_of_safe 'D' (by decide) (by decide) (hnum _)
  have hsc : countSub (numStr noise.scale).data "feDisplacementMap".data = 0 :=
    countSub_zero_of_safe 'D' (by decide) (by decide) (hnum _)
  have hu1 : countSub ("url(#".data ++ (gradientId now).data ++ [')'])
      "feDisplacementMap".data = 0 :=
    countSub_zero_of_safe 'D' (by decide) (by decide)
      (safe_push (safe_append (by decide) (safe_gradientId now)) (by decide))
  have hu2 : countSub ("url(#".data ++ (filterId now).data ++ [')'])
      "feDisplacementMap".data = 0 :=
    countSub_zero_of_safe 'D' (by decide) (by decide)
      (safe_push (safe_append (by decide) (safe_filterId now)) (by decide))
  have hu3 : countSub ("url(#".data ++ (patternId now).data ++ [')'])
      "feDisplacementMap".data = 0 :=
    countSub_zero_of_safe 'D' (by decide) (by decide)
      (safe_push (safe_append (by decide) (safe_patternId now)) (by decide))
  simp only [segsNoiseTail, List.map_cons, List.map_nil, List.sum_cons, List.sum_nil,
    hfid, hpid, hbf, hno, hsc, hu1, hu2, hu3]
  decide

theorem segsNoiseTail_count_x1 (numStr : ℚ → String) (now : ℕ) (noise : NoiseSettings)
    (hnum : ∀ q : ℚ, ∀ ch ∈ (numStr q).data, safeChar ch = true) :
    ((segsNoiseTail numStr now noise).map (fun s => countSub s "x1=".data)).sum
      = 0 := by
  have hfid : countSub (filterId now).data "x1=".data = 0 :=
    countSub_zero_of_safe '=' (by decide) (by decide) (safe_filterId now)
  have hpid : countSub (patternId now).data "x1=".data = 0 :=
    countSub_zero_of_safe '=' (by decide) (by decide) (safe_patternId now)
  have hbf : countSub (numStr noise.baseFrequency).data "x1=".data = 0 :=
    countSub_zero_of_safe '=' (by decide) (by decide) (hnum _)
  have hno : countSub (numStr noise.numOctaves).data "x1=".data = 0 :=
    countSub_zero_of_safe '=' (by decide) (by decide) (hnum _)
  have hsc : countSub (numStr noise.scale).data "x1=".data = 0 :=
    countSub_zero_of_safe '=' (by decide) (by decide) (hnum _)
  have hu1 : countSub ("url(#".data ++ (gradientId now).data ++ [')'])
      "x1=".data = 0 :=
    countSub_zero_of_safe '=' (by decide) (by decide)
      (safe_push (safe_append (by decide) (safe_gradientId now)) (by decide))
  have hu2 : countSub ("url(#".data ++ (filterId now).data ++ [')'])
      "x1=".data = 0 :=
    countSub_zero_of_safe '=' (by decide) (by decide)
      (safe_push (safe_append (by decide) (safe_filterId now)) (by decide))
  have hu3 : countSub ("url(#".data ++ (patternId now).data ++ [')'])
      "x1=".data = 0 :=
    countSub_zero_of_safe '=' (by decide) (by decide)
      (safe_push (safe_append (by decide) (safe_patternId now)) (by decide))
  simp only [segsNoiseTail, List.map_cons, List.map_nil, List.sum_cons, List.sum_nil,
    hfid, hpid, hbf, hno, hsc, hu1, hu2, hu3]
  decide

theorem segsNoiseTail_count_y1 (numStr : ℚ → String) (now : ℕ) (noise : NoiseSettings)
    (hnum : ∀ q : ℚ, ∀ ch ∈ (numStr q).data, safeChar ch = true) :
    ((segsNoiseTail numStr now noise).map (fun s => countSub s "y1=".data)).sum
      = 0 := by
  have hfid : countSub (filterId now).data "y1=".data = 0 :=
    countSub_zero_of_safe '=' (by decide) (by decide) (safe_filterId now)
  have hpid : countSub (patternId now).data "y1=".data = 0 :=
    countSub_zero_of_safe '=' (by decide) (by decide) (safe_patternId now)
  have hbf : countSub (numStr noise.baseFrequency).data "y1=".data = 0 :=
    countSub_zero_of_safe '=' (by decide) (by decide) (hnum _)
  have hno : countSub (numStr noise.numOctaves).data "y1=".data = 0 :=
    countSub_zero_of_safe '=' (by decide) (by decide) (hnum _)
  have hsc : countSub (numStr noise.scale).data "y1=".data = 0 :=
    countSub_zero_of_safe '=' (by decide) (by decide) (hnum _)
  have hu1 : countSub ("url(#".data ++ (gradientId now).data ++ [')'])
      "y1=".data = 0 :=
    countSub_zero_of_safe '=' (by decide) (by decide)
      (safe_push (safe_append (by decide) (safe_gradientId now)) (by decide))
  have hu2 : countSub ("url(#".data ++ (filterId now).data ++ [')'])
      "y1=".data = 0 :=
    countSub_zero_of_safe '=' (by decide) (by decide)
      (safe_push (safe_append (by decide) (safe_filterId now)) (by decide))
  have hu3 : countSub ("url(#".data ++ (patternId now).data ++ [')'])
      "y1=".data = 0 :=
    countSub_zero_of_safe '=' (by decide) (by decide)
      (safe_push (safe_append (by decide) (safe_patternId now)) (by decide))
  simp only [segsNoiseTail, List.map_cons, List.map_nil, List.sum_cons, List.sum_nil,
    hfid, hpid, hbf, hno, hsc, hu1, hu2, hu3]
  decide

theorem segsNoiseTail_count_x2 (numStr : ℚ → String) (now : ℕ) (noise : NoiseSettings)
    (hnum : ∀ q : ℚ, ∀ ch ∈ (numStr q).data, safeChar ch = true) :
    ((segsNoiseTail numStr now noise).map (fun s => countSub s "x2=".data)).sum
      = 0 := by
  have hfid : countSub (filterId now).data "x2=".data = 0 :=
    countSub_zero_of_safe '=' (by decide) (by decide) (safe_filterId now)
  have hpid : countSub (patternId now).data "x2=".data = 0 :=
    countSub_zero_of_safe '=' (by decide) (by decide) (safe_patternId now)
  have hbf : countSub (numStr noise.baseFrequency).data "x2=".data = 0 :=
    countSub_zero_of_safe '=' (by decide) (by decide) (hnum _)
  have hno : countSub (numStr noise.numOctaves).data "x2=".data = 0 :=
    countSub_zero_of_safe '=' (by decide) (by decide) (hnum _)
  have hsc : countSub (numStr noise.scale).data "x2=".data = 0 :=
    countSub_zero_of_safe '=' (by decide) (by decide) (hnum _)
  have hu1 : countSub ("url(#".data ++ (gradientId now).data ++ [')'])
      "x2=".data = 0 :=
    countSub_zero_of_safe '=' (by decide) (by decide)
      (safe_push (safe_append (by decide) (safe_gradientId now)) (by decide))
  have hu2 : countSub ("url(#".data ++ (filterId now).data ++ [')'])
      "x2=".data = 0 :=
    countSub_zero_of_safe '=' (by decide) (by decide)
      (safe_push (safe_append (by decide) (safe_filterId now)) (by decide))
  have hu3 : countSub ("url(#".data ++ (patternId now).data ++ [')'])
      "x2=".data = 0 :=
    countSub_zero_of_safe '=' (by decide) (by decide)
      (safe_push (safe_append (by decide) (safe_patternId now)) (by decide))
  simp only [segsNoiseTail, List.map_cons, List.map_nil, List.sum_cons, List.sum_nil,
    hfid, hpid, hbf, hno, hsc, hu1, hu2, hu3]
  decide

theorem segsNoiseTail_count_y2 (numStr : ℚ → String) (now : ℕ) (noise : NoiseSettings)
    (hnum : ∀ q : ℚ, ∀ ch ∈ (numStr q).data, safeChar ch = true) :
    ((segsNoiseTail numStr now noise).map (fun s => countSub s "y2=".data)).sum
      = 0 := by
  have hfid : countSub (filterId now).data "y2=".data = 0 :=
    countSub_zero_of_safe '=' (by decide) (by decide) (safe_filterId now)
  have hpid : countSub (patternId now).data "y2=".data = 0 :=
    countSub_zero_of_safe '=' (by decide) (by decide) (safe_patternId now)
  have hbf : countSub (numStr noise.baseFrequency).data "y2=".data = 0 :=
    countSub_zero_of_safe '=' (by decide) (by decide) (hnum _)
  have hno : countSub (numStr noise.numOctaves).data "y2=".data = 0 :=
    countSub_zero_of_safe '=' (by decide) (by decide) (hnum _)
  have hsc : countSub (numStr noise.scale).data "y2=".data = 0 :=
    countSub_zero_of_safe '=' (by decide) (by decide) (hnum _)
  have hu1 : countSub ("url(#".data ++ (gradientId now).data ++ [')'])
      "y2=".data = 0 :=
    countSub_zero_of_safe '=' (by decide) (by decide)
      (safe_push (safe_append (by decide) (safe_gradientId now)) (by decide))
  have hu2 : countSub ("url(#".data ++ (filterId now).data ++ [')'])
      "y2=".data = 0 :=
    countSub_zero_of_safe '=' (by decide) (by decide)
      (safe_push (safe_append (by decide) (safe_filterId now)) (by decide))
  have hu3 : countSub ("url(#".data ++ (patternId now).data ++ [')'])
      "y2=".data = 0 :=
    countSub_zero_of_safe '=' (by decide) (by decide)
      (safe_push (safe_append (by decide) (safe_patternId now)) (by decide))
  simp only [segsNoiseTail, List.map_cons, List.map_nil, List.sum_cons, List.sum_nil,
    hfid, hpid, hbf, hno, hsc, hu1, hu2, hu3]
  decide

theorem plainLinear_count_filt (numStr : ℚ → String) (now : ℕ) (stops : List ColorStop)
    (c1 c2 c3 c4 : String)
    (hnum : ∀ q : ℚ, ∀ ch ∈ (numStr q).data, safeChar ch = true)
    (hcoord : ∀ s ∈ [c1, c2, c3, c4], ∀ ch ∈ String.data s, safeChar ch = true)
    (hcols : ∀ s ∈ stops, ∀ ch ∈ (ColorStop.color s).data, safeChar ch = true) :
    ((segsPlainLinear numStr now stops c1 c2 c3 c4).map
      (fun s => countSub s "<filter".data)).sum = 0 := by
  have hgid : countSub (gradientId now).data "<filter".data = 0 :=
    countSub_zero_of_safe '<' (by decide) (by decide) (safe_gradientId now)
  have hu1 : countSub ("url(#".data ++ (gradientId now).data ++ [')']) "<filter".data = 0 :=
    countSub_zero_of_safe '<' (by decide) (by decide)
      (safe_push (safe_append (by decide) (safe_gradientId now)) (by decide))
  have hc1 : countSub (c1.data ++ ['%']) "<filter".data = 0 :=
    countSub_zero_of_safe '<' (by decide) (by decide)
      (safe_push (hcoord c1 (by simp)) (by decide))
  have hc2 : countSub (c2.data ++ ['%']) "<filter".data = 0 :=
    countSub_zero_of_safe '<' (by decide) (by decide)
      (safe_push (hcoord c2 (by simp)) (by decide))
  have hc3 : countSub (c3.data ++ ['%']) "<filter".data = 0 :=
    countSub_zero_of_safe '<' (by decide) (by decide)
      (safe_push (hcoord c3 (by simp)) (by decide))
  have hc4 : countSub (c4.data ++ ['%']) "<filter".data = 0 :=
    countSub_zero_of_safe '<' (by decide) (by decide)
      (safe_push (hcoord c4 (by simp)) (by decide))
  have hstops := stopSegs_count_zero numStr "<filter".data '<' (by decide) (by decide) hnum
    (by decide) (by decide) ("\n    </linearGradient>\n  </defs>\n  <rect width=".data)
    (by decide) (by decide) stops hcols (">\n      ".data) (by decide) (by decide)
  simp only [segsPlainLinear, List.map_append, List.sum_append, List.map_cons,
    List.map_nil, List.sum_cons, List.sum_nil, hgid, hu1, hc1, hc2, hc3, hc4, hstops]
  decide

theorem plainLinear_count_pat (numStr : ℚ → String) (now : ℕ) (stops : List ColorStop)
    (c1 c2 c3 c4 : String)
    (hnum : ∀ q : ℚ, ∀ ch ∈ (numStr q).data, safeChar ch = true)
    (hcoord : ∀ s ∈ [c1, c2, c3, c4], ∀ ch ∈ String.data s, safeChar ch = true)
    (hcols : ∀ s ∈ stops, ∀ ch ∈ (ColorStop.color s).data, safeChar ch = true) :
    ((segsPlainLinear numStr now stops c1 c2 c3 c4).map
      (fun s => countSub s "<pattern".data)).sum = 0 := by
  have hgid : countSub (gradientId now).data "<pattern".data = 0 :=
    countSub_zero_of_safe '<' (by decide) (by decide) (safe_gradientId now)
  have hu1 : countSub ("url(#".data ++ (gradientId now).data ++ [')']) "<pattern".data = 0 :=
    countSub_zero_of_safe '<' (by decide) (by decide)
      (safe_push (safe_append (by decide) (safe_gradientId now)) (by decide))
  have hc1 : countSub (c1.data ++ ['%']) "<pattern".data = 0 :=
    countSub_zero_of_safe '<' (by decide) (by decide)
      (safe_push (hcoord c1 (by simp)) (by decide))
  have hc2 : countSub (c2.data ++ ['%']) "<pattern".data = 0 :=
    countSub_zero_of_safe '<' (by decide) (by decide)
      (safe_push (hcoord c2 (by simp)) (by decide))
  have hc3 : countSub (c3.data ++ ['%']) "<pattern".data = 0 :=
    countSub_zero_of_safe '<' (by decide) (by decide)
      (safe_push (hcoord c3 (by simp)) (by decide))
  have hc4 : countSub (c4.data ++ ['%']) "<pattern".data = 0 :=
    countSub_zero_of_safe '<' (by decide) (by decide)
      (safe_push (hcoord c4 (by simp)) (by decide))
  have hstops := stopSegs_count_zero numStr "<pattern".data '<' (by decide) (by decide) hnum
    (by decide) (by decide) ("\n    </linearGradient>\n  </defs>\n  <rect width=".data)
    (by decide) (by decide) stops hcols (">\n      ".data) (by decide) (by decide)
  simp only [segsPlainLinear, List.map_append, List.sum_append, List.map_cons,
    List.map_nil, List.sum_cons, List.sum_nil, hgid, hu1, hc1, hc2, hc3, hc4, hstops]
  decide

theorem plainRadial_count_filt (numStr : ℚ → String) (now : ℕ) (stops : List ColorStop)
    (hnum : ∀ q : ℚ, ∀ ch ∈ (numStr q).data, safeChar ch = true)
    (hcols : ∀ s ∈ stops, ∀ ch ∈ (ColorStop.color s).data, safeChar ch = true) :
    ((segsPlainRadial numStr now stops).map
      (fun s => countSub s "<filter".data)).sum = 0 := by
  have hgid : countSub (gradientId now).data "<filter".data = 0 :=
    countSub_zero_of_safe '<' (by decide) (by decide) (safe_gradientId now)
  have hu1 : countSub ("url(#".data ++ (gradientId now).data ++ [')']) "<filter".data = 0 :=
    countSub_zero_of_safe '<' (by decide) (by decide)
      (safe_push (safe_append (by decide) (safe_gradientId now)) (by decide))
  have hstops := stopSegs_count_zero numStr "<filter".data '<' (by decide) (by decide) hnum
    (by decide) (by decide) ("\n    </radialGradient>\n  </defs>\n  <rect width=".data)
    (by decide) (by decide) stops hcols (">\n      ".data) (by decide) (by decide)
  simp only [segsPlainRadial, List.map_append, List.sum_append, List.map_cons,
    List.map_nil, List.sum_cons, List.sum_nil, hgid, hu1, hstops]
  decide

theorem plainRadial_count_pat (numStr : ℚ → String) (now : ℕ) (stops : List ColorStop)
    (hnum : ∀ q : ℚ, ∀ ch ∈ (numStr q).data, safeChar ch = true)
    (hcols : ∀ s ∈ stops, ∀ ch ∈ (ColorStop.color s).data, safeChar ch = true) :
    ((segsPlainRadial numStr now stops).map
      (fun s => countSub s "<pattern".data)).sum = 0 := by
  have hgid : countSub (gradientId now).data "<pattern".data = 0 :=
    countSub_zero_of_safe '<' (by decide) (by decide) (safe_gradientId now)
  have hu1 : countSub ("url(#".data ++ (gradientId now).data ++ [')']) "<pattern".data = 0 :=
    countSub_zero_of_safe '<' (by decide) (by decide)
      (safe_push (safe_append (by decide) (safe_gradientId now)) (by decide))
  have hstops := stopSegs_count_zero numStr "<pattern".data '<' (by decide) (by decide) hnum
    (by decide) (by decide) ("\n    </radialGradient>\n  </defs>\n  <rect width=".data)
    (by decide) (by decide) stops hcols (">\n      ".data) (by decide) (by decide)
  simp only [segsPlainRadial, List.map_append, List.sum_append, List.map_cons,
    List.map_nil, List.sum_cons, List.sum_nil, hgid, hu1, hstops]
  decide

theorem plainRadial_count_x1 (numStr : ℚ → String) (now : ℕ) (stops : List ColorStop)
    (hnum : ∀ q : ℚ, ∀ ch ∈ (numStr q).data, safeChar ch = true)
    (hcols : ∀ s ∈ stops, ∀ ch ∈ (ColorStop.color s).data, safeChar ch = true) :
    ((segsPlainRadial numStr now stops).map
      (fun s => countSub s "x1=".data)).sum = 0 := by
  have hgid : countSub (gradientId now).data "x1=".data = 0 :=
    countSub_zero_of_safe '=' (by decide) (by decide) (safe_gradientId now)
  have hu1 : countSub ("url(#".data ++ (gradientId now).data ++ [')']) "x1=".data = 0 :=
    countSub_zero_of_safe '=' (by decide) (by decide)
      (safe_push (safe_append (by decide) (safe_gradientId now)) (by decide))
  have hstops := stopSegs_count_zero numStr "x1=".data '=' (by decide) (by decide) hnum
    (by decide) (by decide) ("\n    </radialGradient>\n  </defs>\n  <rect width=".data)
    (by decide) (by decide) stops hcols (">\n      ".data) (by decide) (by decide)
  simp only [segsPlainRadial, List.map_append, List.sum_append, List.map_cons,
    List.map_nil, List.sum_cons, List.sum_nil, hgid, hu1, hstops]
  decide

theorem plainRadial_count_y1 (numStr : ℚ → String) (now : ℕ) (stops : List ColorStop)
    (hnum : ∀ q : ℚ, ∀ ch ∈ (numStr q).data, safeChar ch = true)
    (hcols : ∀ s ∈ stops, ∀ ch ∈ (ColorStop.color s).data, safeChar ch = true) :
    ((segsPlainRadial numStr now stops).map
      (fun s => countSub s "y1=".data)).sum = 0 := by
  have hgid : countSub (gradientId now).data "y1=".data = 0 :=
    countSub_zero_of_safe '=' (by decide) (by decide) (safe_gradientId now)
  have hu1 : countSub ("url(#".data ++ (gradientId now).data ++ [')']) "y1=".data = 0 :=
    countSub_zero_of_safe '=' (by decide) (by decide)
      (safe_push (safe_append (by decide) (safe_gradientId now)) (by decide))
  have hstops := stopSegs_count_zero numStr "y1=".data '=' (by decide) (by decide) hnum
    (by decide) (by decide) ("\n    </radialGradient>\n  </defs>\n  <rect width=".data)
    (by decide) (by decide) stops hcols (">\n      ".data) (by decide) (by decide)
  simp only [segsPlainRadial, List.map_append, List.sum_append, List.map_cons,
    List.map_nil, List.sum_cons, List.sum_nil, hgid, hu1, hstops]
  decide

theorem plainRadial_count_x2 (numStr : ℚ → String) (now : ℕ) (stops : List ColorStop)
    (hnum : ∀ q : ℚ, ∀ ch ∈ (numStr q).data, safeChar ch = true)
    (hcols : ∀ s ∈ stops, ∀ ch ∈ (ColorStop.color s).data, safeChar ch = true) :
    ((segsPlainRadial numStr now stops).map
      (fun s => countSub s "x2=".data)).sum = 0 := by
  have hgid : countSub (gradientId now).data "x2=".data = 0 :=
    countSub_zero_of_safe '=' (by decide) (by decide) (safe_gradientId now)
  have hu1 : countSub ("url(#".data ++ (gradientId now).data ++ [')']) "x2=".data = 0 :=
    countSub_zero_of_safe '=' (by decide) (by decide)
      (safe_push (safe_append (by decide) (safe_gradientId now)) (by decide))
  have hstops := stopSegs_count_zero numStr "x2=".data '=' (by decide) (by decide) hnum
    (by decide) (by decide) ("\n    </radialGradient>\n  </defs>\n  <rect width=".data)
    (by decide) (by decide) stops hcols (">\n      ".data) (by decide) (by decide)
  simp only [segsPlainRadial, List.map_append, List.sum_append, List.map_cons,
    List.map_nil, List.sum_cons, List.sum_nil, hgid, hu1, hstops]
  decide

theorem plainRadial_count_y2 (numStr : ℚ → String) (now : ℕ) (stops : List ColorStop)
    (hnum : ∀ q : ℚ, ∀ ch ∈ (numStr q).data, safeChar ch = true)
    (hcols : ∀ s ∈ stops, ∀ ch ∈ (ColorStop.color s).data, safeChar ch = true) :
    ((segsPlainRadial numStr now stops).map
      (fun s => countSub s "y2=".data)).sum = 0 := by
  have hgid : countSub (gradientId now).data "y2=".data = 0 :=
    countSub_zero_of_safe '=' (by decide) (by decide) (safe_gradientId now)
  have hu1 : countSub ("url(#".data ++ (gradientId now).data ++ [')']) "y2=".data = 0 :=
    countSub_zero_of_safe '=' (by decide) (by decide)
      (safe_push (safe_append (by decide) (safe_gradientId now)) (by decide))
  have hstops := stopSegs_count_zero numStr "y2=".data '=' (by decide) (by decide) hnum
    (by decide) (by decide) ("\n    </radialGradient>\n  </defs>\n  <rect width=".data)
    (by decide) (by decide) stops hcols (">\n      ".data) (by decide) (by decide)
  simp only [segsPlainRadial, List.map_append, List.sum_append, List.map_cons,
    List.map_nil, List.sum_cons, List.sum_nil, hgid, hu1, hstops]
  decide

theorem noiseLinear_count_fT (numStr : ℚ → String) (now : ℕ) (stops : List ColorStop)
    (c1 c2 c3 c4 : String) (noise : NoiseSettings)
    (hnum : ∀ q : ℚ, ∀ ch ∈ (numStr q).data, safeChar ch = true)
    (hcoord : ∀ s ∈ [c1, c2, c3, c4], ∀ ch ∈ String.data s, safeChar ch = true)
    (hcols : ∀ s ∈ stops, ∀ ch ∈ (ColorStop.color s).data, safeChar ch = true) :
    ((segsNoiseLinear numStr now stops c1 c2 c3 c4 noise).map
      (fun s => countSub s "feTurbulence".data)).sum = 1 := by
  have hgid : countSub (gradientId now).data "feTurbulence".data = 0 :=
    countSub_zero_of_safe 'T' (by decide) (by decide) (safe_gradientId now)
  have hc1 : countSub (c1.data ++ ['%']) "feTurbulence".data = 0 :=
    countSub_zero_of_safe 'T' (by decide) (by decide)
      (safe_push (hcoord c1 (by simp)) (by decide))
  have hc2 : countSub (c2.data ++ ['%']) "feTurbulence".data = 0 :=
    countSub_zero_of_safe 'T' (by decide) (by decide)
      (safe_push (hcoord c2 (by simp)) (by decide))
  have hc3 : countSub (c3.data ++ ['%']) "feTurbulence".data = 0 :=
    countSub_zero_of_safe 'T' (by decide) (by decide)
      (safe_push (hcoord c3 (by simp)) (by decide))
  have hc4 : countSub (c4.data ++ ['%']) "feTurbulence".data = 0 :=
    countSub_zero_of_safe 'T' (by decide) (by decide)
      (safe_push (hcoord c4 (by simp)) (by decide))
  have hstops := stopSegs_count_zero numStr "feTurbulence".data 'T' (by decide) (by decide) hnum
    (by decide) (by decide) ("\n    </linearGradient>\n    <filter id=".data)
    (by decide) (by decide) stops hcols (">\n      ".data) (by decide) (by decide)
  have htail := segsNoiseTail_count_fT numStr now noise hnum
  simp only [segsNoiseLinear, List.map_append, List.sum_append, List.map_cons,
    List.map_nil, List.sum_cons, List.sum_nil, hgid, hc1, hc2, hc3, hc4, hstops, htail]
  decide

theorem noiseLinear_count_fD (numStr : ℚ → String) (now : ℕ) (stops : List ColorStop)
    (c1 c2 c3 c4 : String) (noise : NoiseSettings)
    (hnum : ∀ q : ℚ, ∀ ch ∈ (numStr q).data, safeChar ch = true)
    (hcoord : ∀ s ∈ [c1, c2, c3, c4], ∀ ch ∈ String.data s, safeChar ch = true)
    (hcols : ∀ s ∈ stops, ∀ ch ∈ (ColorStop.color s).data, safeChar ch = true) :
    ((segsNoiseLinear numStr now stops c1 c2 c3 c4 noise).map
      (fun s => countSub s "feDisplacementMap".data)).sum = 1 := by
  have hgid : countSub (gradientId now).data "feDisplacementMap".data = 0 :=
    countSub_zero_of_safe 'D' (by decide) (by decide) (safe_gradientId now)
  have hc1 : countSub (c1.data ++ ['%']) "feDisplacementMap".data = 0 :=
    countSub_zero_of_safe 'D' (by decide) (by decide)
      (safe_push (hcoord c1 (by simp)) (by decide))
  have hc2 : countSub (c2.data ++ ['%']) "feDisplacementMap".data = 0 :=
    countSub_zero_of_safe 'D' (by decide) (by decide)
      (safe_push (hcoord c2 (by simp)) (by decide))
  have hc3 : countSub (c3.data ++ ['%']) "feDisplacementMap".data = 0 :=
    countSub_zero_of_safe 'D' (by decide) (by decide)
      (safe_push (hcoord c3 (by simp)) (by decide))
  have hc4 : countSub (c4.data ++ ['%']) "feDisplacementMap".data = 0 :=
    countSub_zero_of_safe 'D' (by decide) (by decide)
      (safe_push (hcoord c4 (by simp)) (by decide))
  have hstops := stopSegs_count_zero numStr "feDisplacementMap".data 'D' (by decide) (by decide) hnum
    (by decide) (by decide) ("\n    </linearGradient>\n    <filter id=".data)
    (by decide) (by decide) stops hcols (">\n      ".data) (by decide) (by decide)
  have htail := segsNoiseTail_count_fD numStr now noise hnum
  simp only [segsNoiseLinear, List.map_append, List.sum_append, List.map_cons,
    List.map_nil, List.sum_cons, List.sum_nil, hgid, hc1, hc2, hc3, hc4, hstops, htail]
  decide

theorem noiseRadial_count_fT (numStr : ℚ → String) (now : ℕ) (stops : List ColorStop)
    (noise : NoiseSettings)
    (hnum : ∀ q : ℚ, ∀ ch ∈ (numStr q).data, safeChar ch = true)
    (hcols : ∀ s ∈ stops, ∀ ch ∈ (ColorStop.color s).data, safeChar ch = true) :
    ((segsNoiseRadial numStr now stops noise).map
      (fun s => countSub s "feTurbulence".data)).sum = 1 := by
  have hgid : countSub (gradientId now).data "feTurbulence".data = 0 :=
    countSub_zero_of_safe 'T' (by decide) (by decide) (safe_gradientId now)
  have hstops := stopSegs_count_zero numStr "feTurbulence".data 'T' (by decide) (by decide) hnum
    (by decide) (by decide) ("\n    </radialGradient>\n    <filter id=".data)
    (by decide) (by decide) stops hcols (">\n      ".data) (by decide) (by decide)
  have htail := segsNoiseTail_count_fT numStr now noise hnum
  simp only [segsNoiseRadial, List.map_append, List.sum_append, List.map_cons,
    List.map_nil, List.sum_cons, List.sum_nil, hgid, hstops, htail]
  decide

theorem noiseRadial_count_fD (numStr : ℚ → String) (now : ℕ) (stops : List ColorStop)
    (noise : NoiseSettings)
    (hnum : ∀ q : ℚ, ∀ ch ∈ (numStr q).data, safeChar ch = true)
    (hcols : ∀ s ∈ stops, ∀ ch ∈ (ColorStop.color s).data, safeChar ch = true) :
    ((segsNoiseRadial numStr now stops noise).map
      (fun s => countSub s "feDisplacementMap".data)).sum = 1 := by
  have hgid : countSub (gradientId now).data "feDisplacementMap".data = 0 :=
    countSub_zero_of_safe 'D' (by decide) (by decide) (safe_gradientId now)
  have hstops := stopSegs_count_zero numStr "feDisplacementMap".data 'D' (by decide) (by decide) hnum
    (by decide) (by decide) ("\n    </radialGradient>\n    <filter id=".data)
    (by decide) (by decide) stops hcols (">\n      ".data) (by decide) (by decide)
  have htail := segsNoiseTail_count_fD numStr now noise hnum
  simp only [segsNoiseRadial, List.map_append, List.sum_append, List.map_cons,
    List.map_nil, List.sum_cons, List.sum_nil, hgid, hstops, htail]
  decide

theorem noiseRadial_count_x1 (numStr : ℚ → String) (now : ℕ) (stops : List ColorStop)
    (noise : NoiseSettings)
    (hnum : ∀ q : ℚ, ∀ ch ∈ (numStr q).data, safeChar ch = true)
    (hcols : ∀ s ∈ stops, ∀ ch ∈ (ColorStop.color s).data, safeChar ch = true) :
    ((segsNoiseRadial numStr now stops noise).map
      (fun s => countSub s "x1=".data)).sum = 0 := by
  have hgid : countSub (gradientId now).data "x1=".data = 0 :=
    countSub_zero_of_safe '=' (by decide) (by decide) (safe_gradientId now)
  have hstops := stopSegs_count_zero numStr "x1=".data '=' (by decide) (by decide) hnum
    (by decide) (by decide) ("\n    </radialGradient>\n    <filter id=".data)
    (by decide) (by decide) stops hcols (">\n      ".data) (by decide) (by decide)
  have htail := segsNoiseTail_count_x1 numStr now noise hnum
  simp only [segsNoiseRadial, List.map_append, List.sum_append, List.map_cons,
    List.map_nil, List.sum_cons, List.sum_nil, hgid, hstops, htail]
  decide

theorem noiseRadial_count_y1 (numStr : ℚ → String) (now : ℕ) (stops : List ColorStop)
    (noise : NoiseSettings)
    (hnum : ∀ q : ℚ, ∀ ch ∈ (numStr q).data, safeChar ch = true)
    (hcols : ∀ s ∈ stops, ∀ ch ∈ (ColorStop.color s).data, safeChar ch = true) :
    ((segsNoiseRadial numStr now stops noise).map
      (fun s => countSub s "y1=".data)).sum = 0 := by
  have hgid : countSub (gradientId now).data "y1=".data = 0 :=
    countSub_zero_of_safe '=' (by decide) (by decide) (safe_gradientId now)
  have hstops := stopSegs_count_zero numStr "y1=".data '=' (by decide) (by decide) hnum
    (by decide) (by decide) ("\n    </radialGradient>\n    <filter id=".data)
    (by decide) (by decide) stops hcols (">\n      ".data) (by decide) (by decide)
  have htail := segsNoiseTail_count_y1 numStr now noise hnum
  simp only [segsNoiseRadial, List.map_append, List.sum_append, List.map_cons,
    List.map_nil, List.sum_cons, List.sum_nil, hgid, hstops, htail]
  decide

theorem noiseRadial_count_x2 (numStr : ℚ → String) (now : ℕ) (stops : List ColorStop)
    (noise : NoiseSettings)
    (hnum : ∀ q : ℚ, ∀ ch ∈ (numStr q).data, safeChar ch = true)
    (hcols : ∀ s ∈ stops, ∀ ch ∈ (ColorStop.color s).data, safeChar ch = true) :
    ((segsNoiseRadial numStr now stops noise).map
      (fun s => countSub s "x2=".data)).sum = 0 := by
  have hgid : countSub (gradientId now).data "x2=".data = 0 :=
    countSub_zero_of_safe '=' (by decide) (by decide) (safe_gradientId now)
  have hstops := stopSegs_count_zero numStr "x2=".data '=' (by decide) (by decide) hnum
    (by decide) (by decide) ("\n    </radialGradient>\n    <filter id=".data)
    (by decide) (by decide) stops hcols (">\n      ".data) (by decide) (by decide)
  have htail := segsNoiseTail_count_x2 numStr now noise hnum
  simp only [segsNoiseRadial, List.map_append, List.sum_append, List.map_cons,
    List.map_nil, List.sum_cons, List.sum_nil, hgid, hstops, htail]
  decide

theorem noiseRadial_count_y2 (numStr : ℚ → String) (now : ℕ) (stops : List ColorStop)
    (noise : NoiseSettings)
    (hnum : ∀ q : ℚ, ∀ ch ∈ (numStr q).data, safeChar ch = true)
    (hcols : ∀ s ∈ stops, ∀ ch ∈ (ColorStop.color s).data, safeChar ch = true) :
    ((segsNoiseRadial numStr now stops noise).map
      (fun s => countSub s "y2=".data)).sum = 0 := by
  have hgid : countSub (gradientId now).data "y2=".data = 0 :=
    countSub_zero_of_safe '=' (by decide) (by decide) (safe_gradientId now)
  have hstops := stopSegs_count_zero numStr "y2=".data '=' (by decide) (by decide) hnum
    (by decide) (by decide) ("\n    </radialGradient>\n    <filter id=".data)
    (by decide) (by decide) stops hcols (">\n      ".data) (by decide) (by decide)
  have htail := segsNoiseTail_count_y2 numStr now noise hnum
  simp only [segsNoiseRadial, List.map_append, List.sum_append, List.map_cons,
    List.map_nil, List.sum_cons, List.sum_nil, hgid, hstops, htail]
  decide

theorem sepJoin_infix_extend (b : Char) (X Y : List (List Char)) (hY : Y ≠ [])
    {a : List Char} (h : a <:+: sepJoin b Y) : a <:+: sepJoin b (X ++ Y) := by
  cases X with
  | nil => simpa using h
  | cons x X' =>
    rw [sepJoin_append b (x :: X') Y (by simp) hY]
    obtain ⟨u, v, huv⟩ := h
    exact ⟨sepJoin b (x :: X') ++ b :: u, v, by rw [← huv]; simp [List.append_assoc]⟩

theorem stopSegs_shape (numStr : ℚ → String) (gL gR : List Char) (stops : List ColorStop) :
    ∃ hd tl, stopSegs numStr gL gR stops = (gL ++ hd) :: tl := by
  cases stops with
  | nil => exact ⟨gR, [], rfl⟩
  | cons s rest =>
    cases rest with
    | nil =>
      exact ⟨"<stop offset=".data, [(numStr s.offset).data ++ ['%'],
        " stop-color=".data, s.color.data, " />".data ++ gR], rfl⟩
    | cons t rest' =>
      exact ⟨"<stop offset=".data, ((numStr s.offset).data ++ ['%']) ::
        " stop-color=".data :: s.color.data ::
          stopSegs numStr (" />\n      ".data) gR (t :: rest'), rfl⟩

theorem noiseTail_infix_bf (numStr : ℚ → String) (now : ℕ) (noise : NoiseSettings)
    (X : List (List Char)) :
    ("baseFrequency=\"" ++ numStr noise.baseFrequency ++ "\"").data
      <:+: sepJoin '"' (X ++ segsNoiseTail numStr now noise) := by
  have hpat : ("baseFrequency=\"" ++ numStr noise.baseFrequency ++ "\"").data
      = "baseFrequency=".data ++ '"' :: sepJoin '"' [(numStr noise.baseFrequency).data]
        ++ '"' :: ([] : List Char) := by
    simp [sepJoin, List.append_assoc]
  rw [hpat]
  apply sepJoin_infix_extend '"' X _ (by simp [segsNoiseTail])
  exact sepJoin_infix_run
    [(filterId now).data, " x=".data, "-50%".data, " y=".data, "-50%".data, " width=".data,
      "200%".data, " height=".data, "200%".data, ">\n      <feTurbulence\n        type=".data,
      "fractalNoise".data]
    ("\n        ".data) ("baseFrequency=".data)
    [(numStr noise.baseFrequency).data] (by simp) []
    ("\n        numOctaves=".data)
    [(numStr noise.numOctaves).data, "\n        result=".data, "turbulence".data,
      " />\n      <feDisplacementMap\n        in=".data, "SourceGraphic".data,
      "\n        in2=".data, "turbulence".data, "\n        scale=".data,
      (numStr noise.scale).data, "\n        xChannelSelector=".data, "R".data,
      "\n        yChannelSelector=".data, "G".data,
      " />\n    </filter>\n    <pattern id=".data, (patternId now).data, " width=".data,
      "100%".data, " height=".data, "100%".data, " patternUnits=".data,
      "objectBoundingBox".data, ">\n      <rect width=".data, "100%".data, " height=".data,
      "100%".data, " fill=".data, "url(#".data ++ (gradientId now).data ++ [')'],
      " filter=".data, "url(#".data ++ (filterId now).data ++ [')'],
      " />\n    </pattern>\n  </defs>\n  <rect width=".data, "100%".data, " height=".data,
      "100%".data, " fill=".data, "url(#".data ++ (patternId now).data ++ [')'],
      " />\n</svg>".data]

theorem noiseTail_infix_no (numStr : ℚ → String) (now : ℕ) (noise : NoiseSettings)
    (X : List (List Char)) :
    ("numOctaves=\"" ++ numStr noise.numOctaves ++ "\"").data
      <:+: sepJoin '"' (X ++ segsNoiseTail numStr now noise) := by
  have hpat : ("numOctaves=\"" ++ numStr noise.numOctaves ++ "\"").data
      = "numOctaves=".data ++ '"' :: sepJoin '"' [(numStr noise.numOctaves).data]
        ++ '"' :: ([] : List Char) := by
    simp [sepJoin, List.append_assoc]
  rw [hpat]
  apply sepJoin_infix_extend '"' X _ (by simp [segsNoiseTail])
  exact sepJoin_infix_run
    [(filterId now).data, " x=".data, "-50%".data, " y=".data, "-50%".data, " width=".data,
      "200%".data, " height=".data, "200%".data, ">\n      <feTurbulence\n        type=".data,
      "fractalNoise".data, "\n        baseFrequency=".data,
      (numStr noise.baseFrequency).data]
    ("\n        ".data) ("numOctaves=".data)
    [(numStr noise.numOctaves).data] (by simp) []
    ("\n        result=".data)
    ["turbulence".data,
      " />\n      <feDisplacementMap\n        in=".data, "SourceGraphic".data,
      "\n        in2=".data, "turbulence".data, "\n        scale=".data,
      (numStr noise.scale).data, "\n        xChannelSelector=".data, "R".data,
      "\n        yChannelSelector=".data, "G".data,
      " />\n    </filter>\n    <pattern id=".data, (patternId now).data, " width=".data,
      "100%".data, " height=".data, "100%".data, " patternUnits=".data,
      "objectBoundingBox".data, ">\n      <rect width=".data, "100%".data, " height=".data,
      "100%".data, " fill=".data, "url(#".data ++ (gradientId now).data ++ [')'],
      " filter=".data, "url(#".data ++ (filterId now).data ++ [')'],
      " />\n    </pattern>\n  </defs>\n  <rect width=".data, "100%".data, " height=".data,
      "100%".data, " fill=".data, "url(#".data ++ (patternId now).data ++ [')'],
      " />\n</svg>".data]

theorem noiseTail_infix_sc (numStr : ℚ → String) (now : ℕ) (noise : NoiseSettings)
    (X : List (List Char)) :
    ("scale=\"" ++ numStr noise.scale ++ "\"").data
      <:+: sepJoin '"' (X ++ segsNoiseTail numStr now noise) := by
  have hpat : ("scale=\"" ++ numStr noise.scale ++ "\"").data
      = "scale=".data ++ '"' :: sepJoin '"' [(numStr noise.scale).data]
        ++ '"' :: ([] : List Char) := by
    simp [sepJoin, List.append_assoc]
  rw [hpat]
  apply sepJoin_infix_extend '"' X _ (by simp [segsNoiseTail])
  exact sepJoin_infix_run
    [(filterId now).data, " x=".data, "-50%".data, " y=".data, "-50%".data, " width=".data,
      "200%".data, " height=".data, "200%".data, ">\n      <feTurbulence\n        type=".data,
      "fractalNoise".data, "\n        baseFrequency=".data,
      (numStr noise.baseFrequency).data, "\n        numOctaves=".data,
      (numStr noise.numOctaves).data, "\n        result=".data, "turbulence".data,
      " />\n      <feDisplacementMap\n        in=".data, "SourceGraphic".data,
      "\n        in2=".data, "turbulence".data]
    ("\n        ".data) ("scale=".data)
    [(numStr noise.scale).data] (by simp) []
    ("\n        xChannelSelector=".data)
    ["R".data,
      "\n        yChannelSelector=".data, "G".data,
      " />\n    </filter>\n    <pattern id=".data, (patternId now).data, " width=".data,
      "100%".data, " height=".data, "100%".data, " patternUnits=".data,
      "objectBoundingBox".data, ">\n      <rect width=".data, "100%".data, " height=".data,
      "100%".data, " fill=".data, "url(#".data ++ (gradientId now).data ++ [')'],
      " filter=".data, "url(#".data ++ (filterId now).data ++ [')'],
      " />\n    </pattern>\n  </defs>\n  <rect width=".data, "100%".data, " height=".data,
      "100%".data, " fill=".data, "url(#".data ++ (patternId now).data ++ [')'],
      " />\n</svg>".data]

/-- Both noise branches of the linear generator emit the
`<linearGradient …>` opening tag with the four endpoint coordinates computed
from the angle, as `x1`, `y1`, `x2`, `y2` percentage attributes. -/
theorem generateSVG_linear_tag {α : Type} [Field α] (T : TrigOps α) (coordStr : α → String)
    (numStr : ℚ → String) (now : ℕ) (angle : ℚ) (stops : List ColorStop)
    (noise : NoiseSettings) :
    containsStr (generateSVG T coordStr numStr now ⟨GradientType.linear, angle, stops, noise⟩)
      ("<linearGradient id=\"" ++ gradientId now
        ++ "\" x1=\"" ++ coordStr (50 + 50 * T.cos (((angle : α) - 90) * T.pi / 180))
        ++ "%\" y1=\"" ++ coordStr (50 + 50 * T.sin (((angle : α) - 90) * T.pi / 180))
        ++ "%\" x2=\"" ++ coordStr (50 - 50 * T.cos (((angle : α) - 90) * T.pi / 180))
        ++ "%\" y2=\"" ++ coordStr (50 - 50 * T.sin (((angle : α) - 90) * T.pi / 180))
        ++ "%\">") := by
  have h1 : "<linearGradient id=\"".data = "<linearGradient id=".data ++ ['"'] := by decide
  have h2 : "\" x1=\"".data = '"' :: " x1=".data ++ ['"'] := by decide
  have h3 : "%\" y1=\"".data = '%' :: '"' :: (" y1=".data ++ ['"']) := by decide
  have h4 : "%\" x2=\"".data = '%' :: '"' :: (" x2=".data ++ ['"']) := by decide
  have h5 : "%\" y2=\"".data = '%' :: '"' :: (" y2=".data ++ ['"']) := by decide
  have h6 : "%\">".data = '%' :: '"' :: ['>'] := by decide
  have hpat : ("<linearGradient id=\"" ++ gradientId now
        ++ "\" x1=\"" ++ coordStr (50 + 50 * T.cos (((angle : α) - 90) * T.pi / 180))
        ++ "%\" y1=\"" ++ coordStr (50 + 50 * T.sin (((angle : α) - 90) * T.pi / 180))
        ++ "%\" x2=\"" ++ coordStr (50 - 50 * T.cos (((angle : α) - 90) * T.pi / 180))
        ++ "%\" y2=\"" ++ coordStr (50 - 50 * T.sin (((angle : α) - 90) * T.pi / 180))
        ++ "%\">").data
      = "<linearGradient id=".data ++ '"' :: sepJoin '"'
          [(gradientId now).data, " x1=".data,
            (coordStr (50 + 50 * T.cos (((angle : α) - 90) * T.pi / 180))).data ++ ['%'],
            " y1=".data,
            (coordStr (50 + 50 * T.sin (((angle : α) - 90) * T.pi / 180))).data ++ ['%'],
            " x2=".data,
            (coordStr (50 - 50 * T.cos (((angle : α) - 90) * T.pi / 180))).data ++ ['%'],
            " y2=".data,
            (coordStr (50 - 50 * T.sin (((angle : α) - 90) * T.pi / 180))).data ++ ['%']]
        ++ '"' :: ['>'] := by
    simp only [String.data_append, sepJoin, h1, h2, h3, h4, h5, h6,
      List.append_assoc, List.cons_append, List.nil_append]
  unfold containsStr
  rw [hpat]
  cases hn : noise.enabled with
  | false =>
    rw [generateSVG_plainLinear_data T coordStr numStr now angle stops noise hn]
    obtain ⟨hd, tl, hstop⟩ := stopSegs_shape numStr (">\n      ".data)
      ("\n    </linearGradient>\n  </defs>\n  <rect width=".data) stops
    rw [segsPlainLinear, hstop]
    exact sepJoin_infix_run
      ["<svg width=".data, "100%".data, " height=".data, "100%".data, " xmlns=".data,
        "http://www.w3.org/2000/svg".data]
      (">\n  <defs>\n    ".data) ("<linearGradient id=".data)
      [(gradientId now).data, " x1=".data,
        (coordStr (50 + 50 * T.cos (((angle : α) - 90) * T.pi / 180))).data ++ ['%'],
        " y1=".data,
        (coordStr (50 + 50 * T.sin (((angle : α) - 90) * T.pi / 180))).data ++ ['%'],
        " x2=".data,
        (coordStr (50 - 50 * T.cos (((angle : α) - 90) * T.pi / 180))).data ++ ['%'],
        " y2=".data,
        (coordStr (50 - 50 * T.sin (((angle : α) - 90) * T.pi / 180))).data ++ ['%']]
      (by simp) ['>'] ("\n      ".data ++ hd)
      (tl ++ ["100%".data, " height=".data, "100%".data, " fill=".data,
        "url(#".data ++ (gradientId now).data ++ [')'], " />\n</svg>".data])
  | true =>
    rw [generateSVG_noiseLinear_data T coordStr numStr now angle stops noise hn]
    obtain ⟨hd, tl, hstop⟩ := stopSegs_shape numStr (">\n      ".data)
      ("\n    </linearGradient>\n    <filter id=".data) stops
    rw [segsNoiseLinear, hstop]
    exact sepJoin_infix_run
      ["<svg width=".data, "100%".data, " height=".data, "100%".data, " xmlns=".data,
        "http://www.w3.org/2000/svg".data]
      (">\n  <defs>\n    ".data) ("<linearGradient id=".data)
      [(gradientId now).data, " x1=".data,
        (coordStr (50 + 50 * T.cos (((angle : α) - 90) * T.pi / 180))).data ++ ['%'],
        " y1=".data,
        (coordStr (50 + 50 * T.sin (((angle : α) - 90) * T.pi / 180))).data ++ ['%'],
        " x2=".data,
        (coordStr (50 - 50 * T.cos (((angle : α) - 90) * T.pi / 180))).data ++ ['%'],
        " y2=".data,
        (coordStr (50 - 50 * T.sin (((angle : α) - 90) * T.pi / 180))).data ++ ['%']]
      (by simp) ['>'] ("\n      ".data ++ hd)
      (tl ++ segsNoiseTail numStr now noise)

theorem generateSVG_attr_bf {α : Type} [Field α] (T : TrigOps α) (coordStr : α → String)
    (numStr : ℚ → String) (now : ℕ) (gt : GradientType) (angle : ℚ)
    (stops : List ColorStop) (noise : NoiseSettings) (hn : noise.enabled = true) :
    containsStr (generateSVG T coordStr numStr now ⟨gt, angle, stops, noise⟩)
      ("baseFrequency=\"" ++ numStr noise.baseFrequency ++ "\"") := by
  unfold containsStr
  cases gt with
  | linear =>
    rw [generateSVG_noiseLinear_data T coordStr numStr now angle stops noise hn,
      segsNoiseLinear, ← List.append_assoc]
    exact noiseTail_infix_bf numStr now noise _
  | radial =>
    rw [generateSVG_noiseRadial_data T coordStr numStr now angle stops noise hn,
      segsNoiseRadial, ← List.append_assoc]
    exact noiseTail_infix_bf numStr now noise _

theorem generateSVG_attr_no {α : Type} [Field α] (T : TrigOps α) (coordStr : α → String)
    (numStr : ℚ → String) (now : ℕ) (gt : GradientType) (angle : ℚ)
    (stops : List ColorStop) (noise : NoiseSettings) (hn : noise.enabled = true) :
    containsStr (generateSVG T coordStr numStr now ⟨gt, angle, stops, noise⟩)
      ("numOctaves=\"" ++ numStr noise.numOctaves ++ "\"") := by
  unfold containsStr
  cases gt with
  | linear =>
    rw [generateSVG_noiseLinear_data T coordStr numStr now angle stops noise hn,
      segsNoiseLinear, ← List.append_assoc]
    exact noiseTail_infix_no numStr now noise _
  | radial =>
    rw [generateSVG_noiseRadial_data T coordStr numStr now angle stops noise hn,
      segsNoiseRadial, ← List.append_assoc]
    exact noiseTail_infix_no numStr now noise _

theorem generateSVG_attr_sc {α : Type} [Field α] (T : TrigOps α) (coordStr : α → String)
    (numStr : ℚ → String) (now : ℕ) (gt : GradientType) (angle : ℚ)
    (stops : List ColorStop) (noise : NoiseSettings) (hn : noise.enabled = true) :
    containsStr (generateSVG T coordStr numStr now ⟨gt, angle, stops, noise⟩)
      ("scale=\"" ++ numStr noise.scale ++ "\"") := by
  unfold containsStr
  cases gt with
  | linear =>
    rw [generateSVG_noiseLinear_data T coordStr numStr now angle stops noise hn,
      segsNoiseLinear, ← List.append_assoc]
    exact noiseTail_infix_sc numStr now noise _
  | radial =>
    rw [generateSVG_noiseRadial_data T coordStr numStr now angle stops noise hn,
      segsNoiseRadial, ← List.append_assoc]
    exact noiseTail_infix_sc numStr now noise _

/-- C3 counterexample: with three stops of which two share an id, removal is
not rejected (three is more than two) yet the filter drops two stops at once,
leaving fewer than two — the claim, quantified over every stops list, fails. -/
theorem removeColorStop_counterexample :
    2 ≤ ([⟨"x", "#000000", 0⟩, ⟨"x", "#000000", 50⟩, ⟨"y", "#ffffff", 100⟩] :
        List ColorStop).length ∧
    (removeColorStop "x"
      [⟨"x", "#000000", 0⟩, ⟨"x", "#000000", 50⟩, ⟨"y", "#ffffff", 100⟩]).length < 2 := by
  decide

/-- C3 (amended): for stops lists with pairwise-distinct ids and at least two
elements, removal never brings the count below two, and removal at exactly
two stops is a no-op. -/
theorem filter_ne_id_length (i : String) {l : List ColorStop}
    (hnd : (l.map ColorStop.id).Nodup) :
    l.length ≤ (l.filter (fun stop => stop.id ≠ i)).length + 1 := by
  induction l with
  | nil => simp
  | cons s t ih =>
    rw [List.map_cons, List.nodup_cons] at hnd
    by_cases hsi : s.id = i
    · have hall : ∀ x ∈ t, x.id ≠ i := by
        intro x hx hxi
        exact hnd.1 (hsi ▸ hxi ▸ List.mem_map_of_mem ColorStop.id hx)
      have hfilter : t.filter (fun stop => stop.id ≠ i) = t := by
        rw [List.filter_eq_self]
        intro x hx
        simpa using hall x hx
      have hcons : List.filter (fun stop => stop.id ≠ i) (s :: t)
          = List.filter (fun stop => stop.id ≠ i) t := by
        simp [List.filter_cons, hsi]
      rw [List.length_cons, hcons, hfilter]
    · have hcons : List.filter (fun stop => stop.id ≠ i) (s :: t)
          = s :: List.filter (fun stop => stop.id ≠ i) t := by
        simp [List.filter_cons, hsi]
      have := ih hnd.2
      rw [List.length_cons, hcons, List.length_cons]
      omega

theorem removeColorStop_min_two (i : String) (stops : List ColorStop)
    (hnd : (stops.map ColorStop.id).Nodup) (h2 : 2 ≤ stops.length) :
    2 ≤ (removeColorStop i stops).length ∧
    (stops.length = 2 → removeColorStop i stops = stops) := by
  unfold removeColorStop
  by_cases h : 2 < stops.length
  · rw [if_pos h]
    have := filter_ne_id_length i hnd
    exact ⟨by omega, fun heq => by omega⟩
  · rw [if_neg h]
    exact ⟨h2, fun _ => rfl⟩

/-- C4: starting from a stops list sorted by offset, each of the three
mutations (add, remove, update) produces a list sorted by offset. -/
theorem mutations_preserve_sorted (stops : List ColorStop)
    (hs : List.Sorted stopLE stops) (now : ℕ) (rand : ℚ) (i : String) (u : StopUpdate) :
    List.Sorted stopLE (addColorStop now rand stops) ∧
    List.Sorted stopLE (removeColorStop i stops) ∧
    List.Sorted stopLE (updateColorStop i u stops) := by
  refine ⟨List.sorted_insertionSort stopLE _, ?_, List.sorted_insertionSort stopLE _⟩
  unfold removeColorStop
  by_cases h : 2 < stops.length
  · rw [if_pos h]
    exact List.Pairwise.filter _ hs
  · rw [if_neg h]
    exact hs

/-- C4 witness. -/
theorem mutations_preserve_sorted_witness :
    List.Sorted stopLE (addColorStop 7 (1/2)
      [⟨"1", "#667eea", 0⟩, ⟨"2", "#764ba2", 100⟩]) ∧
    List.Sorted stopLE (removeColorStop "1"
      [⟨"1", "#667eea", 0⟩, ⟨"2", "#764ba2", 100⟩]) ∧
    List.Sorted stopLE (updateColorStop "1" (StopUpdate.offset 30)
      [⟨"1", "#667eea", 0⟩, ⟨"2", "#764ba2", 100⟩]) :=
  mutations_preserve_sorted [⟨"1", "#667eea", 0⟩, ⟨"2", "#764ba2", 100⟩]
    (by decide) 7 (1/2) "1" (StopUpdate.offset 30)

/-- C3 witness for the amended statement. -/
theorem removeColorStop_min_two_witness :
    2 ≤ (removeColorStop "1" [⟨"1", "#667eea", 0⟩, ⟨"2", "#764ba2", 100⟩]).length ∧
    (([⟨"1", "#667eea", 0⟩, ⟨"2", "#764ba2", 100⟩] : List ColorStop).length = 2 →
      removeColorStop "1" [⟨"1", "#667eea", 0⟩, ⟨"2", "#764ba2", 100⟩]
        = [⟨"1", "#667eea", 0⟩, ⟨"2", "#764ba2", 100⟩]) :=
  removeColorStop_min_two "1" [⟨"1", "#667eea", 0⟩, ⟨"2", "#764ba2", 100⟩]
    (by decide) (by decide)

/-- C9: adding a color stop appends exactly one new stop with offset 50 and a
valid six-hex-digit color (for every random draw in `[0, 1)`), then re-sorts;
every prior stop survives unchanged. -/
theorem addColorStop_spec (stops : List ColorStop) (now : ℕ) (rand : ℚ)
    (h0 : 0 ≤ rand) (h1 : rand < 1) :
    addColorStop now rand stops = sortByOffset (stops ++ [newStop now rand]) ∧
    (newStop now rand).offset = 50 ∧
    isHexColor (newStop now rand).color = true ∧
    (addColorStop now rand stops).Perm (stops ++ [newStop now rand]) ∧
    ∀ s ∈ stops, s ∈ addColorStop now rand stops := by
  have hn6 : Int.toNat ⌊rand * 16777215⌋ < 16 ^ 6 := by
    have hlt : rand * 16777215 < 16777215 := by
      calc rand * 16777215 < 1 * 16777215 := by
            exact mul_lt_mul_of_pos_right h1 (by norm_num)
      _ = 16777215 := by norm_num
    have hfl : ⌊rand * 16777215⌋ < (16777215 : ℤ) := by
      rw [Int.floor_lt]
      exact_mod_cast hlt
    have hfl0 : (0 : ℤ) ≤ ⌊rand * 16777215⌋ :=
      Int.floor_nonneg.mpr (by positivity)
    omega
  have hlen : (natHexStr (Int.toNat ⌊rand * 16777215⌋)).data.length ≤ 6 :=
    natHexStr_length hn6
  have hhex : isHexColor (randColor rand) = true := by
    have hdata : (randColor rand).data
        = '#' :: (List.replicate
            (6 - (natHexStr (Int.toNat ⌊rand * 16777215⌋)).data.length) '0'
          ++ (natHexStr (Int.toNat ⌊rand * 16777215⌋)).data) := rfl
    rw [isHexColor, hdata]
    simp only [beq_self_eq_true, Bool.true_and, Bool.and_eq_true, beq_iff_eq,
      List.length_append, List.length_replicate, List.all_eq_true]
    constructor
    · omega
    · intro ch hch
      rcases List.mem_append.mp hch with hrep | hdig
      · rw [List.eq_of_mem_replicate hrep]
        decide
      · exact natHexStr_chars _ ch hdig
  refine ⟨rfl, rfl, hhex, List.perm_insertionSort stopLE _, ?_⟩
  intro s hs
  exact ((List.perm_insertionSort stopLE _).mem_iff).mpr (List.mem_append_left _ hs)

/-- C9 witness. -/
theorem addColorStop_spec_witness :
    addColorStop 7 (1/2) [⟨"1", "#667eea", 0⟩, ⟨"2", "#764ba2", 100⟩]
      = sortByOffset ([⟨"1", "#667eea", 0⟩, ⟨"2", "#764ba2", 100⟩] ++ [newStop 7 (1/2)]) ∧
    (newStop 7 (1/2)).offset = 50 ∧
    isHexColor (newStop 7 (1/2)).color = true ∧
    (addColorStop 7 (1/2) [⟨"1", "#667eea", 0⟩, ⟨"2", "#764ba2", 100⟩]).Perm
      ([⟨"1", "#667eea", 0⟩, ⟨"2", "#764ba2", 100⟩] ++ [newStop 7 (1/2)]) ∧
    ∀ s ∈ ([⟨"1", "#667eea", 0⟩, ⟨"2", "#764ba2", 100⟩] : List ColorStop),
      s ∈ addColorStop 7 (1/2) [⟨"1", "#667eea", 0⟩, ⟨"2", "#764ba2", 100⟩] :=
  addColorStop_spec [⟨"1", "#667eea", 0⟩, ⟨"2", "#764ba2", 100⟩] 7 (1/2)
    (by norm_num) (by norm_num)

/-- C10: updating a stop by id rewrites exactly the named field of the stops
carrying that id (one stop, under distinct ids), leaves all other stops and
the other field untouched up to re-sorting, and is the identity when the id
is absent. -/
theorem updateColorStop_frame (stops : List ColorStop) (i : String) (u : StopUpdate)
    (hs : List.Sorted stopLE stops) (hnd : (stops.map ColorStop.id).Nodup) :
    updateColorStop i u stops
        = sortByOffset (stops.map (fun s => if s.id = i then applyUpdate u s else s)) ∧
    (updateColorStop i u stops).Perm
        (stops.map (fun s => if s.id = i then applyUpdate u s else s)) ∧
    (∀ s ∈ stops, s.id ≠ i → s ∈ updateColorStop i u stops) ∧
    (∀ s ∈ stops, s.id = i → applyUpdate u s ∈ updateColorStop i u stops) ∧
    (∀ s, (applyUpdate u s).id = s.id) ∧
    (∀ s v, u = StopUpdate.color v →
      (applyUpdate u s).offset = s.offset ∧ (applyUpdate u s).color = v) ∧
    (∀ s v, u = StopUpdate.offset v →
      (applyUpdate u s).color = s.color ∧ (applyUpdate u s).offset = v) ∧
    (i ∉ stops.map ColorStop.id → updateColorStop i u stops = stops) := by
  refine ⟨rfl, List.perm_insertionSort stopLE _, ?_, ?_, ?_, ?_, ?_, ?_⟩
  · intro s hs' hne
    apply ((List.perm_insertionSort stopLE _).mem_iff).mpr
    have : (fun s => if s.id = i then applyUpdate u s else s) s = s := if_neg hne
    exact this ▸ List.mem_map_of_mem _ hs'
  · intro s hs' heq
    apply ((List.perm_insertionSort stopLE _).mem_iff).mpr
    have : (fun s => if s.id = i then applyUpdate u s else s) s = applyUpdate u s :=
      if_pos heq
    exact this ▸ List.mem_map_of_mem _ hs'
  · intro s
    cases u <;> rfl
  · intro s v hv
    subst hv
    exact ⟨rfl, rfl⟩
  · intro s v hv
    subst hv
    exact ⟨rfl, rfl⟩
  · intro habs
    have hmap : stops.map (fun s => if s.id = i then applyUpdate u s else s) = stops := by
      have : ∀ s ∈ stops, (if s.id = i then applyUpdate u s else s) = s := by
        intro s hs'
        have hne : s.id ≠ i := by
          intro heq
          exact habs (heq ▸ List.mem_map_of_mem ColorStop.id hs')
        rw [if_neg hne]
      calc stops.map (fun s => if s.id = i then applyUpdate u s else s)
          = stops.map id := List.map_congr_left this
      _ = stops := List.map_id stops
    show sortByOffset _ = stops
    rw [hmap]
    exact List.Sorted.insertionSort_eq hs

/-- C10 witness. -/
theorem updateColorStop_frame_witness :
    (updateColorStop "1" (StopUpdate.offset 30) [⟨"1", "#667eea", 0⟩, ⟨"2", "#764ba2", 100⟩]
        = sortByOffset (([⟨"1", "#667eea", 0⟩, ⟨"2", "#764ba2", 100⟩] : List ColorStop).map
            (fun s => if s.id = "1" then applyUpdate (StopUpdate.offset 30) s else s)) ∧
      (updateColorStop "1" (StopUpdate.offset 30)
          [⟨"1", "#667eea", 0⟩, ⟨"2", "#764ba2", 100⟩]).Perm
        (([⟨"1", "#667eea", 0⟩, ⟨"2", "#764ba2", 100⟩] : List ColorStop).map
          (fun s => if s.id = "1" then applyUpdate (StopUpdate.offset 30) s else s)) ∧
      (∀ s ∈ ([⟨"1", "#667eea", 0⟩, ⟨"2", "#764ba2", 100⟩] : List ColorStop), s.id ≠ "1" →
        s ∈ updateColorStop "1" (StopUpdate.offset 30)
          [⟨"1", "#667eea", 0⟩, ⟨"2", "#764ba2", 100⟩]) ∧
      (∀ s ∈ ([⟨"1", "#667eea", 0⟩, ⟨"2", "#764ba2", 100⟩] : List ColorStop), s.id = "1" →
        applyUpdate (StopUpdate.offset 30) s ∈ updateColorStop "1" (StopUpdate.offset 30)
          [⟨"1", "#667eea", 0⟩, ⟨"2", "#764ba2", 100⟩]) ∧
      (∀ s, (applyUpdate (StopUpdate.offset 30) s).id = s.id) ∧
      (∀ s v, StopUpdate.offset 30 = StopUpdate.color v →
        (applyUpdate (StopUpdate.offset 30) s).offset = s.offset ∧
          (applyUpdate (StopUpdate.offset 30) s).color = v) ∧
      (∀ s v, StopUpdate.offset 30 = StopUpdate.offset v →
        (applyUpdate (StopUpdate.offset 30) s).color = s.color ∧
          (applyUpdate (StopUpdate.offset 30) s).offset = v) ∧
      ("1" ∉ ([⟨"1", "#667eea", 0⟩, ⟨"2", "#764ba2", 100⟩] : List ColorStop).map
          ColorStop.id →
        updateColorStop "1" (StopUpdate.offset 30)
            [⟨"1", "#667eea", 0⟩, ⟨"2", "#764ba2", 100⟩]
          = [⟨"1", "#667eea", 0⟩, ⟨"2", "#764ba2", 100⟩])) :=
  updateColorStop_frame [⟨"1", "#667eea", 0⟩, ⟨"2", "#764ba2", 100⟩] "1"
    (StopUpdate.offset 30) (by decide) (by decide)

theorem ne_of_head {s t : String} {c d : Char} (hs : s.data.head? = some c)
    (ht : t.data.head? = some d) (hcd : c ≠ d) : s ≠ t := by
  intro h
  rw [h] at hs
  rw [hs] at ht
  exact hcd (Option.some.inj ht)

theorem id_suffix_inj (p : String) {m k : ℕ} (h : p ++ natStr m = p ++ natStr k) : m = k := by
  apply natStr_injective
  apply String.ext
  have hdata := congrArg String.data h
  rw [String.data_append, String.data_append] at hdata
  exact List.append_cancel_left hdata

theorem gradientId_inj {m k : ℕ} (h : gradientId m = gradientId k) : m = k :=
  id_suffix_inj "gradient-" h

theorem filterId_inj {m k : ℕ} (h : filterId m = filterId k) : m = k :=
  id_suffix_inj "filter-" h

theorem turbulenceId_inj {m k : ℕ} (h : turbulenceId m = turbulenceId k) : m = k :=
  id_suffix_inj "turbulence-" h

theorem patternId_inj {m k : ℕ} (h : patternId m = patternId k) : m = k :=
  id_suffix_inj "pattern-" h

theorem gradientId_head (m : ℕ) : (gradientId m).data.head? = some 'g' := rfl

theorem filterId_head (m : ℕ) : (filterId m).data.head? = some 'f' := rfl

theorem turbulenceId_head (m : ℕ) : (turbulenceId m).data.head? = some 't' := rfl

theorem patternId_head (m : ℕ) : (patternId m).data.head? = some 'p' := rfl

/-- C5: the identifiers of two generation calls with distinct `Date.now()`
values are pairwise distinct (and the four identifiers within one call are
pairwise distinct), because each kind carries a distinct prefix and the
timestamp suffix is rendered injectively. -/
theorem genIds_nodup (n₁ n₂ : ℕ) (hne : n₁ ≠ n₂) : (genIds n₁ ++ genIds n₂).Nodup := by
  have hgf : ∀ m k : ℕ, gradientId m ≠ filterId k :=
    fun m k => ne_of_head (gradientId_head m) (filterId_head k) (by decide)
  have hgt : ∀ m k : ℕ, gradientId m ≠ turbulenceId k :=
    fun m k => ne_of_head (gradientId_head m) (turbulenceId_head k) (by decide)
  have hgp : ∀ m k : ℕ, gradientId m ≠ patternId k :=
    fun m k => ne_of_head (gradientId_head m) (patternId_head k) (by decide)
  have hft : ∀ m k : ℕ, filterId m ≠ turbulenceId k :=
    fun m k => ne_of_head (filterId_head m) (turbulenceId_head k) (by decide)
  have hfp : ∀ m k : ℕ, filterId m ≠ patternId k :=
    fun m k => ne_of_head (filterId_head m) (patternId_head k) (by decide)
  have htp : ∀ m k : ℕ, turbulenceId m ≠ patternId k :=
    fun m k => ne_of_head (turbulenceId_head m) (patternId_head k) (by decide)
  have hg : gradientId n₁ ≠ gradientId n₂ := fun h => hne (gradientId_inj h)
  have hf : filterId n₁ ≠ filterId n₂ := fun h => hne (filterId_inj h)
  have ht : turbulenceId n₁ ≠ turbulenceId n₂ := fun h => hne (turbulenceId_inj h)
  have hp : patternId n₁ ≠ patternId n₂ := fun h => hne (patternId_inj h)
  simp only [genIds, List.cons_append, List.nil_append, List.nodup_cons,
    List.mem_cons, List.not_mem_nil, or_false, List.nodup_nil, and_true,
    not_or]
  refine ⟨⟨hgf n₁ n₁, hgt n₁ n₁, hgp n₁ n₁, hg, hgf n₁ n₂, hgt n₁ n₂, hgp n₁ n₂⟩,
    ⟨hft n₁ n₁, hfp n₁ n₁, fun h => hgf n₂ n₁ h.symm, hf, hft n₁ n₂, hfp n₁ n₂⟩,
    ⟨htp n₁ n₁, fun h => hgt n₂ n₁ h.symm, fun h => hft n₂ n₁ h.symm, ht, htp n₁ n₂⟩,
    ⟨fun h => hgp n₂ n₁ h.symm, fun h => hfp n₂ n₁ h.symm, fun h => htp n₂ n₁ h.symm, hp⟩,
    ⟨hgf n₂ n₂, hgt n₂ n₂, hgp n₂ n₂⟩, ⟨hft n₂ n₂, hfp n₂ n₂⟩, ⟨htp n₂ n₂, not_false⟩⟩

/-- C5 witness. -/
theorem genIds_nodup_witness : (genIds 1 ++ genIds 2).Nodup :=
  genIds_nodup 1 2 (by decide)

/-- C8 (spec-modelled): for linear configurations with sorted stops,
`computeCSSGradient` produces `linear-gradient(<angle>deg, <tokens>)` with
the `"<color> <offset>%"` tokens in ascending-offset order. -/
theorem computeCSSGradient_linear (numStr : ℚ → String) (cfg : AppState)
    (hlin : cfg.gradientType = GradientType.linear)
    (hsorted : List.Sorted stopLE cfg.colorStops) :
    computeCSSGradient numStr cfg
      = "linear-gradient(" ++ numStr cfg.angle ++ "deg, "
        ++ joinSep ", "
          (cfg.colorStops.map (fun s => s.color ++ " " ++ numStr s.offset ++ "%"))
        ++ ")" ∧
    List.Sorted (· ≤ ·) (cfg.colorStops.map ColorStop.offset) := by
  constructor
  · obtain ⟨gt, angle, stops, noise⟩ := cfg
    cases hlin
    rfl
  · exact List.Pairwise.map ColorStop.offset (fun _ _ h => h) hsorted

/-- C8 witness: the spec's example configuration renders exactly as claimed. -/
theorem computeCSSGradient_linear_witness :
    computeCSSGradient intRatStr
        ⟨GradientType.linear, 90,
          [⟨"1", "#667eea", 0⟩, ⟨"2", "#764ba2", 100⟩], ⟨false, 1/50, 3, 20⟩⟩
      = "linear-gradient(90deg, #667eea 0%, #764ba2 100%)" ∧
    List.Sorted (· ≤ ·)
      (([⟨"1", "#667eea", 0⟩, ⟨"2", "#764ba2", 100⟩] : List ColorStop).map
        ColorStop.offset) := by
  have h := computeCSSGradient_linear intRatStr
    ⟨GradientType.linear, 90,
      [⟨"1", "#667eea", 0⟩, ⟨"2", "#764ba2", 100⟩], ⟨false, 1/50, 3, 20⟩⟩
    rfl (by decide)
  exact ⟨h.1.trans (by decide), h.2⟩

/-- C1: for every linear configuration, in the noise-enabled and the
noise-disabled branch alike, `generateSVG` (over the real trig operations)
emits the `<linearGradient>` element whose `x1`,`y1`,`x2`,`y2` percentage
attributes carry the endpoints `(50 ± 50·cos rad, 50 ± 50·sin rad)` with
`rad = (angle − 90)·π/180`, as given by the specification functions
`specX1` … `specY2`. -/
theorem generateSVG_linear_endpoints (coordStr : ℝ → String) (numStr : ℚ → String)
    (now : ℕ) (st : AppState) (hlin : st.gradientType = GradientType.linear) :
    containsStr (generateSVG realTrig coordStr numStr now st)
      ("<linearGradient id=\"" ++ gradientId now
        ++ "\" x1=\"" ++ coordStr (specX1 st.angle)
        ++ "%\" y1=\"" ++ coordStr (specY1 st.angle)
        ++ "%\" x2=\"" ++ coordStr (specX2 st.angle)
        ++ "%\" y2=\"" ++ coordStr (specY2 st.angle)
        ++ "%\">") := by
  obtain ⟨gt, angle, stops, noise⟩ := st
  cases hlin
  exact generateSVG_linear_tag realTrig coordStr numStr now angle stops noise

/-- C1 witness. -/
theorem generateSVG_linear_endpoints_witness :
    containsStr (generateSVG realTrig (fun _ => "0") (fun _ => "0") 7
        ⟨GradientType.linear, 90, [⟨"1", "#667eea", 0⟩, ⟨"2", "#764ba2", 100⟩],
          ⟨false, 1/50, 3, 20⟩⟩)
      ("<linearGradient id=\"" ++ gradientId 7
        ++ "\" x1=\"" ++ (fun _ : ℝ => "0") (specX1 90)
        ++ "%\" y1=\"" ++ (fun _ : ℝ => "0") (specY1 90)
        ++ "%\" x2=\"" ++ (fun _ : ℝ => "0") (specX2 90)
        ++ "%\" y2=\"" ++ (fun _ : ℝ => "0") (specY2 90)
        ++ "%\">") :=
  generateSVG_linear_endpoints (fun _ => "0") (fun _ => "0") 7
    ⟨GradientType.linear, 90, [⟨"1", "#667eea", 0⟩, ⟨"2", "#764ba2", 100⟩],
      ⟨false, 1/50, 3, 20⟩⟩ rfl

theorem specRad_zero : specRad 0 = -(Real.pi / 2) := by
  rw [specRad]
  push_cast
  ring

theorem cos_specRad_zero : Real.cos (specRad 0) = 0 := by
  rw [specRad_zero, Real.cos_neg, Real.cos_pi_div_two]

theorem sin_specRad_zero : Real.sin (specRad 0) = -1 := by
  rw [specRad_zero, Real.sin_neg, Real.sin_pi_div_two]

theorem specX1_zero : specX1 0 = 50 := by
  rw [specX1, cos_specRad_zero]
  ring

theorem specY1_zero : specY1 0 = 0 := by
  rw [specY1, sin_specRad_zero]
  ring

theorem specX2_zero : specX2 0 = 50 := by
  rw [specX2, cos_specRad_zero]
  ring

theorem specY2_zero : specY2 0 = 100 := by
  rw [specY2, sin_specRad_zero]
  ring

/-- C6: at `angle = 0` the radian value is `−90°`, its cosine is `0` and its
sine is `−1`, so the emitted endpoints of the linear SVG are exactly
`(50%, 0%)` and `(50%, 100%)`. -/
theorem generateSVG_angle_zero :
    specRad 0 = -(Real.pi / 2) ∧
    Real.cos (specRad 0) = 0 ∧
    Real.sin (specRad 0) = -1 ∧
    specX1 0 = 50 ∧ specY1 0 = 0 ∧ specX2 0 = 50 ∧ specY2 0 = 100 ∧
    ∀ (coordStr : ℝ → String) (numStr : ℚ → String) (now : ℕ)
      (stops : List ColorStop) (noise : NoiseSettings),
      containsStr
        (generateSVG realTrig coordStr numStr now ⟨GradientType.linear, 0, stops, noise⟩)
        ("<linearGradient id=\"" ++ gradientId now
          ++ "\" x1=\"" ++ coordStr 50
          ++ "%\" y1=\"" ++ coordStr 0
          ++ "%\" x2=\"" ++ coordStr 50
          ++ "%\" y2=\"" ++ coordStr 100
          ++ "%\">") := by
  refine ⟨specRad_zero, cos_specRad_zero, sin_specRad_zero, specX1_zero, specY1_zero,
    specX2_zero, specY2_zero, ?_⟩
  intro coordStr numStr now stops noise
  have h : containsStr
      (generateSVG realTrig coordStr numStr now ⟨GradientType.linear, 0, stops, noise⟩)
      ("<linearGradient id=\"" ++ gradientId now
        ++ "\" x1=\"" ++ coordStr (specX1 0)
        ++ "%\" y1=\"" ++ coordStr (specY1 0)
        ++ "%\" x2=\"" ++ coordStr (specX2 0)
        ++ "%\" y2=\"" ++ coordStr (specY2 0)
        ++ "%\">") :=
    generateSVG_linear_tag realTrig coordStr numStr now 0 stops noise
  rw [specX1_zero, specY1_zero, specX2_zero, specY2_zero] at h
  exact h

/-- C2: with noise disabled the SVG output contains no `<filter` and no
`<pattern` fragment; with noise enabled it contains exactly one
`feTurbulence` and exactly one `feDisplacementMap` occurrence, whose
`baseFrequency`, `numOctaves` and `scale` attribute values are the configured
numbers rendered verbatim. Colors are assumed hex-encoded and the number
renderers are assumed to avoid the four characters `<`, `T`, `D`, `=`
(JavaScript number strings consist of digits, `.`, `-`, `+` and `e`). -/
theorem generateSVG_noise_elements {α : Type} [Field α] (T : TrigOps α)
    (coordStr : α → String) (numStr : ℚ → String) (now : ℕ) (st : AppState)
    (hnum : ∀ q : ℚ, ∀ ch ∈ (numStr q).data, safeChar ch = true)
    (hcoord : ∀ x : α, ∀ ch ∈ (coordStr x).data, safeChar ch = true)
    (hcols : ∀ s ∈ st.colorStops, isHexColor (ColorStop.color s) = true) :
    (st.noise.enabled = false →
      countOccur (generateSVG T coordStr numStr now st) "<filter" = 0 ∧
      countOccur (generateSVG T coordStr numStr now st) "<pattern" = 0) ∧
    (st.noise.enabled = true →
      countOccur (generateSVG T coordStr numStr now st) "feTurbulence" = 1 ∧
      countOccur (generateSVG T coordStr numStr now st) "feDisplacementMap" = 1 ∧
      containsStr (generateSVG T coordStr numStr now st)
        ("baseFrequency=\"" ++ numStr st.noise.baseFrequency ++ "\"") ∧
      containsStr (generateSVG T coordStr numStr now st)
        ("numOctaves=\"" ++ numStr st.noise.numOctaves ++ "\"") ∧
      containsStr (generateSVG T coordStr numStr now st)
        ("scale=\"" ++ numStr st.noise.scale ++ "\"")) := by
  obtain ⟨gt, angle, stops, noise⟩ := st
  have hcolsafe : ∀ s ∈ stops, ∀ ch ∈ (ColorStop.color s).data, safeChar ch = true :=
    fun s hs => safe_hexColor (hcols s hs)
  have hcoord4 : ∀ a b c d : α, ∀ s ∈ [coordStr a, coordStr b, coordStr c, coordStr d],
      ∀ ch ∈ String.data s, safeChar ch = true := by
    intro a b c d s hs
    simp only [List.mem_cons, List.not_mem_nil, or_false] at hs
    rcases hs with rfl | rfl | rfl | rfl <;> exact hcoord _
  constructor
  · intro hn
    cases gt with
    | linear =>
      constructor
      · rw [countOccur,
          generateSVG_plainLinear_data T coordStr numStr now angle stops noise hn,
          countSub_sepJoin (by decide) (by decide)]
        exact plainLinear_count_filt numStr now stops _ _ _ _ hnum (hcoord4 _ _ _ _) hcolsafe
      · rw [countOccur,
          generateSVG_plainLinear_data T coordStr numStr now angle stops noise hn,
          countSub_sepJoin (by decide) (by decide)]
        exact plainLinear_count_pat numStr now stops _ _ _ _ hnum (hcoord4 _ _ _ _) hcolsafe
    | radial =>
      constructor
      · rw [countOccur,
          generateSVG_plainRadial_data T coordStr numStr now angle stops noise hn,
          countSub_sepJoin (by decide) (by decide)]
        exact plainRadial_count_filt numStr now stops hnum hcolsafe
      · rw [countOccur,
          generateSVG_plainRadial_data T coordStr numStr now angle stops noise hn,
          countSub_sepJoin (by decide) (by decide)]
        exact plainRadial_count_pat numStr now stops hnum hcolsafe
  · intro hn
    refine ⟨?_, ?_, generateSVG_attr_bf T coordStr numStr now gt angle stops noise hn,
      generateSVG_attr_no T coordStr numStr now gt angle stops noise hn,
      generateSVG_attr_sc T coordStr numStr now gt angle stops noise hn⟩
    · cases gt with
      | linear =>
        rw [countOccur,
          generateSVG_noiseLinear_data T coordStr numStr now angle stops noise hn,
          countSub_sepJoin (by decide) (by decide)]
        exact noiseLinear_count_fT numStr now stops _ _ _ _ noise hnum (hcoord4 _ _ _ _)
          hcolsafe
      | radial =>
        rw [countOccur,
          generateSVG_noiseRadial_data T coordStr numStr now angle stops noise hn,
          countSub_sepJoin (by decide) (by decide)]
        exact noiseRadial_count_fT numStr now stops noise hnum hcolsafe
    · cases gt with
      | linear =>
        rw [countOccur,
          generateSVG_noiseLinear_data T coordStr numStr now angle stops noise hn,
          countSub_sepJoin (by decide) (by decide)]
        exact noiseLinear_count_fD numStr now stops _ _ _ _ noise hnum (hcoord4 _ _ _ _)
          hcolsafe
      | radial =>
        rw [countOccur,
          generateSVG_noiseRadial_data T coordStr numStr now angle stops noise hn,
          countSub_sepJoin (by decide) (by decide)]
        exact noiseRadial_count_fD numStr now stops noise hnum hcolsafe

/-- C7: the radial SVG output does not depend on the angle — two states that
differ only in their angle produce identical strings for the same
`Date.now()` value — and the radial output carries no `x1=`, `y1=`, `x2=`
or `y2=` endpoint attribute. -/
theorem generateSVG_radial_angle_free {α : Type} [Field α] (T : TrigOps α)
    (coordStr : α → String) (numStr : ℚ → String) (now : ℕ) (st : AppState) (a : ℚ)
    (hrad : st.gradientType = GradientType.radial)
    (hnum : ∀ q : ℚ, ∀ ch ∈ (numStr q).data, safeChar ch = true)
    (hcols : ∀ s ∈ st.colorStops, isHexColor (ColorStop.color s) = true) :
    generateSVG T coordStr numStr now { st with angle := a }
        = generateSVG T coordStr numStr now st ∧
    countOccur (generateSVG T coordStr numStr now st) "x1=" = 0 ∧
    countOccur (generateSVG T coordStr numStr now st) "y1=" = 0 ∧
    countOccur (generateSVG T coordStr numStr now st) "x2=" = 0 ∧
    countOccur (generateSVG T coordStr numStr now st) "y2=" = 0 := by
  obtain ⟨gt, angle, stops, noise⟩ := st
  cases hrad
  have hcolsafe : ∀ s ∈ stops, ∀ ch ∈ (ColorStop.color s).data, safeChar ch = true :=
    fun s hs => safe_hexColor (hcols s hs)
  refine ⟨rfl, ?_, ?_, ?_, ?_⟩
  · cases hn : noise.enabled
    · rw [countOccur,
        generateSVG_plainRadial_data T coordStr numStr now angle stops noise hn,
        countSub_sepJoin (by decide) (by decide)]
      exact plainRadial_count_x1 numStr now stops hnum hcolsafe
    · rw [countOccur,
        generateSVG_noiseRadial_data T coordStr numStr now angle stops noise hn,
        countSub_sepJoin (by decide) (by decide)]
      exact noiseRadial_count_x1 numStr now stops noise hnum hcolsafe
  · cases hn : noise.enabled
    · rw [countOccur,
        generateSVG_plainRadial_data T coordStr numStr now angle stops noise hn,
        countSub_sepJoin (by decide) (by decide)]
      exact plainRadial_count_y1 numStr now stops hnum hcolsafe
    · rw [countOccur,
        generateSVG_noiseRadial_data T coordStr numStr now angle stops noise hn,
        countSub_sepJoin (by decide) (by decide)]
      exact noiseRadial_count_y1 numStr now stops noise hnum hcolsafe
  · cases hn : noise.enabled
    · rw [countOccur,
        generateSVG_plainRadial_data T coordStr numStr now angle stops noise hn,
        countSub_sepJoin (by decide) (by decide)]
      exact plainRadial_count_x2 numStr now stops hnum hcolsafe
    · rw [countOccur,
        generateSVG_noiseRadial_data T coordStr numStr now angle stops noise hn,
        countSub_sepJoin (by decide) (by decide)]
      exact noiseRadial_count_x2 numStr now stops noise hnum hcolsafe
  · cases hn : noise.enabled
    · rw [countOccur,
        generateSVG_plainRadial_data T coordStr numStr now angle stops noise hn,
        countSub_sepJoin (by decide) (by decide)]
      exact plainRadial_count_y2 numStr now stops hnum hcolsafe
    · rw [countOccur,
        generateSVG_noiseRadial_data T coordStr numStr now angle stops noise hn,
        countSub_sepJoin (by decide) (by decide)]
      exact noiseRadial_count_y2 numStr now stops noise hnum hcolsafe

theorem wStr_safe : ∀ q : ℚ, ∀ ch ∈ (wStr q).data, safeChar ch = true := by
  intro q ch hch
  simp only [wStr, List.mem_singleton] at hch
  subst hch
  decide

/-- C2 witness. -/
theorem generateSVG_noise_elements_witness :
    (wState.noise.enabled = false →
      countOccur (generateSVG wTrig wStr wStr 7 wState) "<filter" = 0 ∧
      countOccur (generateSVG wTrig wStr wStr 7 wState) "<pattern" = 0) ∧
    (wState.noise.enabled = true →
      countOccur (generateSVG wTrig wStr wStr 7 wState) "feTurbulence" = 1 ∧
      countOccur (generateSVG wTrig wStr wStr 7 wState) "feDisplacementMap" = 1 ∧
      containsStr (generateSVG wTrig wStr wStr 7 wState)
        ("baseFrequency=\"" ++ wStr wState.noise.baseFrequency ++ "\"") ∧
      containsStr (generateSVG wTrig wStr wStr 7 wState)
        ("numOctaves=\"" ++ wStr wState.noise.numOctaves ++ "\"") ∧
      containsStr (generateSVG wTrig wStr wStr 7 wState)
        ("scale=\"" ++ wStr wState.noise.scale ++ "\"")) :=
  generateSVG_noise_elements wTrig wStr wStr 7 wState wStr_safe wStr_safe (by decide)

/-- C7 witness. -/
theorem generateSVG_radial_angle_free_witness :
    generateSVG wTrig wStr wStr 7 { wStateR with angle := 270 }
      = generateSVG wTrig wStr wStr 7 wStateR ∧
    countOccur (generateSVG wTrig wStr wStr 7 wStateR) "x1=" = 0 ∧
    countOccur (generateSVG wTrig wStr wStr 7 wStateR) "y1=" = 0 ∧
    countOccur (generateSVG wTrig wStr wStr 7 wStateR) "x2=" = 0 ∧
    countOccur (generateSVG wTrig wStr wStr 7 wStateR) "y2=" = 0 :=
  generateSVG_radial_angle_free wTrig wStr wStr 7 wStateR 270 rfl wStr_safe (by decide)

end GradientApp
